import Mathlib

set_option maxHeartbeats 4000000
set_option maxRecDepth 100000

/-
Shallow embedding of the evaluation core of the `adk-python` repository:
`src/google/adk/evaluation/final_response_match_v2.py` (the
FinalResponseMatchV2 evaluator).  Python strings are `String`/`List Char`,
Python floats are `ℚ` (all scores and thresholds in this component are
produced by exact arithmetic on small values), `Optional[x]` is `Option`,
and the one fallible operation (division inside
`aggregate_invocation_results`, which may raise `ZeroDivisionError`)
returns `Except`.

The helper modules `evaluator.py`, `llm_as_judge.py`, `eval_case.py` and
`models/llm_response.py` are referenced by the source but are not part of
the repository snapshot; the definitions taken from them are modelled from
the specification and say so in their doc comments.
-/

/-! ### Python regular-expression semantics, specialised to the two label
patterns of `_extract_validity_label`.

The pattern used by the source is
`"is_the_agent_response_valid":\s*\[*[\n\s]*"*([^"^\]^\s]*)"*[\n\s]*\]*\s*[,\n\}]`
(and the same with `invalid` in the key).  It is a literal followed by a
chain of greedy character-class stars, one of them capturing, followed by a
single terminator character class.  `re.search` semantics: leftmost start
position wins, and at a given start greedy quantifiers prefer the longest
consumption, backtracking on failure.  We embed exactly that with an
explicit backtracking matcher. -/

/-- Character class of Python `\s` for unicode (str) patterns: the
characters matched by `re.compile(r"\s")` / stripped by `str.strip()`. -/
def isPySpace (c : Char) : Bool :=
  let n := c.toNat
  (0x09 ≤ n && n ≤ 0x0d) || n = 0x20 || (0x1c ≤ n && n ≤ 0x1f) ||
    n = 0x85 || n = 0xa0 || n = 0x1680 || (0x2000 ≤ n && n ≤ 0x200a) ||
    n = 0x2028 || n = 0x2029 || n = 0x202f || n = 0x205f || n = 0x3000

/-- Characters admitted inside the capturing group `[^"^\]^\s]`: everything
except a double quote (0x22), a caret (0x5e), a closing square bracket
(0x5d) and Python whitespace. -/
def isValueChar (c : Char) : Bool :=
  !(c.toNat = 0x22 || c.toNat = 0x5e || c.toNat = 0x5d || isPySpace c)

/-- Opening square bracket, for the `\[*` part of the pattern. -/
def isOpenBracket (c : Char) : Bool := c.toNat = 0x5b

/-- Closing square bracket, for the `\]*` part of the pattern. -/
def isCloseBracket (c : Char) : Bool := c.toNat = 0x5d

/-- Double quote, for the `"*` parts of the pattern. -/
def isQuote (c : Char) : Bool := c.toNat = 0x22

/-- Terminator class `[,\n\}]` of the pattern: comma, newline or closing
brace. -/
def isTerminator (c : Char) : Bool :=
  c.toNat = 0x2c || c.toNat = 0x0a || c.toNat = 0x7d

/-- Greedy backtracking star over a character class: consume as many
`p`-characters as possible, and on failure of the continuation `k` retry
with one character fewer, exactly the order a backtracking regex engine
tries a greedy `c*`. -/
def starBT (p : Char → Bool) : List Char → (List Char → Option (List Char)) →
    Option (List Char)
  | [], k => k []
  | c :: cs, k =>
      if p c then (starBT p cs k) <|> k (c :: cs)
      else k (c :: cs)

/-- Greedy backtracking star over a character class that also captures the
consumed characters (the regex group); the continuation receives the
captured characters and the remaining input. -/
def groupBT (p : Char → Bool) : List Char →
    (List Char → List Char → Option (List Char)) → Option (List Char)
  | [], k => k [] []
  | c :: cs, k =>
      if p c then (groupBT p cs (fun g rest => k (c :: g) rest)) <|> k [] (c :: cs)
      else k [] (c :: cs)

/-- Match a literal character sequence at the head of the input, returning
the rest of the input on success. -/
def matchLiteral : List Char → List Char → Option (List Char)
  | [], s => some s
  | _ :: _, [] => none
  | l :: ls, c :: cs => if l = c then matchLiteral ls cs else none

/-- Match the part of the label pattern that follows the literal key, i.e.
`\s*\[*[\n\s]*"*([^"^\]^\s]*)"*[\n\s]*\]*\s*[,\n\}]`, returning the
captured group.  Note `[\n\s]` is the same character class as `\s` since
`\n` is Python whitespace. -/
def matchValueTail (s : List Char) : Option (List Char) :=
  starBT isPySpace s fun s1 =>
  starBT isOpenBracket s1 fun s2 =>
  starBT isPySpace s2 fun s3 =>
  starBT isQuote s3 fun s4 =>
  groupBT isValueChar s4 fun g s5 =>
  starBT isQuote s5 fun s6 =>
  starBT isPySpace s6 fun s7 =>
  starBT isCloseBracket s7 fun s8 =>
  starBT isPySpace s8 fun s9 =>
  match s9 with
  | [] => none
  | c :: _ => if isTerminator c then some g else none

/-- Leftmost search (`re.search`): try every start position from the left;
at each position the pattern requires the literal key first, then the value
tail.  Returns the captured group of the leftmost successful match. -/
def searchKey (key : List Char) : List Char → Option (List Char)
  | [] => none
  | c :: cs =>
      match matchLiteral key (c :: cs) with
      | some rest => (matchValueTail rest) <|> searchKey key cs
      | none => searchKey key cs

/-- Literal prefix of the first pattern of `_extract_validity_label`. -/
def validKeyLit : List Char := "\"is_the_agent_response_valid\":".toList

/-- Literal prefix of the fallback pattern of `_extract_validity_label`. -/
def invalidKeyLit : List Char := "\"is_the_agent_response_invalid\":".toList

/-- The quoted key alone (without the colon), used to state claims about
the key being present in / absent from a judge text. -/
def validKeyQuoted : List Char := "\"is_the_agent_response_valid\"".toList

/-- The quoted fallback key alone (without the colon). -/
def invalidKeyQuoted : List Char := "\"is_the_agent_response_invalid\"".toList

/-- Embedding of `_extract_validity_label` (final_response_match_v2.py,
lines 82-96): search for the `"is_the_agent_response_valid"` pattern,
fall back to the `"is_the_agent_response_invalid"` pattern, return the
captured group of whichever matched, else `none`. -/
def _extract_validity_label (response_text : String) : Option String :=
  match searchKey validKeyLit response_text.toList with
  | some g => some (String.mk g)
  | none =>
      match searchKey invalidKeyLit response_text.toList with
      | some g => some (String.mk g)
      | none => none

/-! ### Data model -/

/-- Modelled from the spec: the status enum of `evaluator.py` (not in the
snapshot); a per-invocation result is PASSED, FAILED or NOT_EVALUATED. -/
inductive EvalStatus where
  | PASSED
  | FAILED
  | NOT_EVALUATED
  deriving DecidableEq, Repr

/-- FunctionSpec of `eval_case.py` (not in the snapshot), modelled from the
spec: a name + description pair describing a callable tool. -/
structure FunctionSpec where
  name : String
  description : String
  deriving DecidableEq, Repr

/-- Modelled from the spec: one textual or non-textual part of a structured
content object (genai `Part`); only the text of textual parts is consumed
by this component. -/
structure ContentPart where
  text : Option String
  deriving DecidableEq, Repr

/-- Modelled from the spec: a structured content object (genai `Content`),
an ordered list of parts with a role. -/
structure Content where
  parts : List ContentPart
  role : String
  deriving DecidableEq, Repr

/-- Invocation of `eval_case.py` (not in the snapshot), modelled from the
spec: user input content, final response content, and the list of function
specs available at that invocation. -/
structure Invocation where
  user_content : Content
  final_response : Content
  function_api_spec : List FunctionSpec := []
  deriving DecidableEq, Repr

/-- PerInvocationResult of `evaluator.py` (not in the snapshot), modelled
from the spec: pairs an actual and expected invocation with a nullable
score and an evaluation status. -/
structure PerInvocationResult where
  actual_invocation : Invocation
  expected_invocation : Invocation
  score : Option ℚ := none
  eval_status : EvalStatus
  deriving DecidableEq, Repr

/-- Options for an eval metric judge model (`eval_metrics.py`); the genai
generation config is external and not consumed by this component. -/
structure JudgeModelOptions where
  judge_model : String
  num_samples : Nat := 1
  deriving DecidableEq, Repr

/-- EvalMetric (`eval_metrics.py`): a named metric with a numeric pass
threshold and optional judge-model options. -/
structure EvalMetric where
  metric_name : String
  threshold : ℚ
  judge_model_options : Option JudgeModelOptions := none
  deriving DecidableEq, Repr

/-- EvaluationResult of `evaluator.py` (not in the snapshot), modelled from
the spec: overall score, overall status, and the per-invocation results
that produced it. -/
structure EvaluationResult where
  overall_score : ℚ
  overall_eval_status : EvalStatus
  per_invocation_results : List PerInvocationResult
  deriving DecidableEq, Repr

/-- Modelled from the spec: an LLM response (`models/llm_response.py`, not
in the snapshot) as consumed here, carrying a content object. -/
structure LlmResponse where
  content : Content
  deriving DecidableEq, Repr

/-- Python arithmetic error surfaced by `aggregate_invocation_results` on a
zero evaluated count. -/
inductive PyArithError where
  | zeroDivisionError
  deriving DecidableEq, Repr

/-- Decidable equality for `Except`, so that concrete runs of the
aggregator can be checked by `decide`. -/
instance {ε α : Type} [DecidableEq ε] [DecidableEq α] :
    DecidableEq (Except ε α)
  | Except.error a, Except.error b =>
      if h : a = b then .isTrue (by rw [h])
      else .isFalse (by intro hh; cases hh; exact h rfl)
  | Except.error _, Except.ok _ => .isFalse (by intro hh; cases hh)
  | Except.ok _, Except.error _ => .isFalse (by intro hh; cases hh)
  | Except.ok a, Except.ok b =>
      if h : a = b then .isTrue (by rw [h])
      else .isFalse (by intro hh; cases hh; exact h rfl)

/-! ### Helpers modelled from the spec (`llm_as_judge.py` is not in the
snapshot) -/

/-- Modelled from the spec: `get_text_from_content` of `llm_as_judge.py`
(not in the snapshot) — text extraction concatenates all textual parts of a
structured content object in order; non-text parts are ignored. -/
def get_text_from_content (content : Content) : String :=
  String.join (content.parts.filterMap (fun p => p.text))

/-- Modelled from the spec: `get_eval_status` of `llm_as_judge.py` (not in
the snapshot) — the overall status is PASSED when the score is greater than
or equal to the threshold, else FAILED. -/
def get_eval_status (score : ℚ) (threshold : ℚ) : EvalStatus :=
  if score ≥ threshold then EvalStatus.PASSED else EvalStatus.FAILED

/-- Python `str.strip()`: remove leading and trailing Python whitespace. -/
def pyStrip (s : String) : String :=
  String.mk (((s.toList.dropWhile isPySpace).reverse.dropWhile isPySpace).reverse)

/-! ### convert_auto_rater_response_to_score -/

/-- Embedding of `convert_auto_rater_response_to_score`
(final_response_match_v2.py, lines 137-152): extract the text of the judge
response, strip it, extract the validity label, and map label `"valid"` to
`1.0`, `"invalid"` to `0.0` and anything else to `None`.  The
`json.JSONDecodeError` handler in the source is unreachable in this path
(neither helper parses JSON), so the embedding is total. -/
def convert_auto_rater_response_to_score (llm_response : LlmResponse) :
    Option ℚ :=
  let response_text := pyStrip (get_text_from_content llm_response.content)
  let label := _extract_validity_label response_text
  if label = some "valid" then some 1
  else if label = some "invalid" then some 0
  else none

/-! ### aggregate_invocation_results -/

/-- One iteration of the loop of `aggregate_invocation_results`
(final_response_match_v2.py, lines 161-165): results whose score is `None`
or whose status is NOT_EVALUATED are skipped, any other result bumps the
evaluated count and adds its score to the running sum. -/
def aggregateStep (acc : ℚ × Nat) (result : PerInvocationResult) : ℚ × Nat :=
  match result.score with
  | none => acc
  | some s =>
      if result.eval_status = EvalStatus.NOT_EVALUATED then acc
      else (acc.1 + s, acc.2 + 1)

/-- Embedding of `aggregate_invocation_results` (final_response_match_v2.py,
lines 154-173): fold the skip/accumulate loop over the results, then divide
the score sum by the evaluated count — raising `ZeroDivisionError` when the
count is zero — and package the overall score, the thresholded status and
the unchanged input list. -/
def aggregate_invocation_results (eval_metric : EvalMetric)
    (per_invocation_results : List PerInvocationResult) :
    Except PyArithError EvaluationResult :=
  let acc := per_invocation_results.foldl aggregateStep (0, 0)
  let num_valid := acc.1
  let num_evaluated := acc.2
  if num_evaluated = 0 then Except.error PyArithError.zeroDivisionError
  else
    let overall_score := num_valid / (num_evaluated : ℚ)
    Except.ok
      { overall_score := overall_score
        overall_eval_status := get_eval_status overall_score eval_metric.threshold
        per_invocation_results := per_invocation_results }

/-! ### format_auto_rater_prompt -/

/-- Lowercase hex digit, as used by `json.dumps` unicode escapes. -/
def hexDigit (n : Nat) : Char :=
  if n < 10 then Char.ofNat (0x30 + n) else Char.ofNat (0x57 + n)

/-- Four-digit `\uXXXX` escape. -/
def uEscape (n : Nat) : List Char :=
  [Char.ofNat 0x5c, 'u', hexDigit (n / 4096 % 16), hexDigit (n / 256 % 16),
   hexDigit (n / 16 % 16), hexDigit (n % 16)]

/-- Escaping of one character inside a JSON string as produced by
`json.dumps` with its defaults (`ensure_ascii=True`): backslash and quote
escaped, the named control escapes, `\uXXXX` for other control or non-ASCII
characters, surrogate pairs above the BMP. -/
def jsonEscapeChar (c : Char) : List Char :=
  let n := c.toNat
  if n = 0x22 then [Char.ofNat 0x5c, Char.ofNat 0x22]
  else if n = 0x5c then [Char.ofNat 0x5c, Char.ofNat 0x5c]
  else if n = 0x08 then [Char.ofNat 0x5c, 'b']
  else if n = 0x09 then [Char.ofNat 0x5c, 't']
  else if n = 0x0a then [Char.ofNat 0x5c, 'n']
  else if n = 0x0c then [Char.ofNat 0x5c, 'f']
  else if n = 0x0d then [Char.ofNat 0x5c, 'r']
  else if n < 0x20 then uEscape n
  else if n < 0x7f then [c]
  else if n ≤ 0xffff then uEscape n
  else uEscape (0xd800 + (n - 0x10000) / 0x400) ++
       uEscape (0xdc00 + (n - 0x10000) % 0x400)

/-- Serialization of one Python string by `json.dumps`. -/
def json_dumps_str (s : String) : String :=
  String.mk (Char.ofNat 0x22 :: (s.toList.map jsonEscapeChar).flatten ++
    [Char.ofNat 0x22])

/-- Embedding of `_format_function_api_spec` (final_response_match_v2.py,
lines 99-107): build one dict per function with keys `"Function name"` and
`"Function description"` and serialize the list with `json.dumps`, whose
default separators are `", "` between items and `": "` after keys. -/
def _format_function_api_spec (functions : List FunctionSpec) : String :=
  "[" ++ String.intercalate ", "
    (functions.map (fun function =>
      "\x7b\"Function name\": " ++ json_dumps_str function.name ++
      ", \"Function description\": " ++ json_dumps_str function.description ++
      "\x7d")) ++ "]"

/-- Scanner modes for Python `str.format`: `normal` copies characters,
`afterOpen` / `afterClose` have just seen one brace (a doubled brace is an
escaped brace, a lone closing brace is an error, an opening brace starts a
replacement field), and `fieldName` holds the field name read so far,
reversed. -/
inductive FmtMode where
  | normal
  | afterOpen
  | afterClose
  | fieldName (acc : List Char)

/-- Scanner for Python `str.format` with keyword arguments, restricted to
what the prompt template uses: field substitution is verbatim (no format
specs, no indexing); an unknown field, an unterminated replacement or a
lone closing brace is an error (`none`). -/
def formatScan (fields : List (String × String)) :
    List Char → FmtMode → Option (List Char)
  | [], .normal => some []
  | [], .afterOpen => none
  | [], .afterClose => none
  | [], .fieldName _ => none
  | c :: cs, .normal =>
      if c.toNat = 0x7b then formatScan fields cs .afterOpen
      else if c.toNat = 0x7d then formatScan fields cs .afterClose
      else (formatScan fields cs .normal).map (fun r => c :: r)
  | c :: cs, .afterOpen =>
      if c.toNat = 0x7b then (formatScan fields cs .normal).map (fun r => c :: r)
      else if c.toNat = 0x7d then
        match fields.lookup "" with
        | some v => (formatScan fields cs .normal).map (fun r => v.toList ++ r)
        | none => none
      else formatScan fields cs (.fieldName [c])
  | c :: cs, .afterClose =>
      if c.toNat = 0x7d then (formatScan fields cs .normal).map (fun r => c :: r)
      else none
  | c :: cs, .fieldName acc =>
      if c.toNat = 0x7d then
        match fields.lookup (String.mk acc.reverse) with
        | some v => (formatScan fields cs .normal).map (fun r => v.toList ++ r)
        | none => none
      else formatScan fields cs (.fieldName (c :: acc))

/-- Python `str.format` with keyword arguments, as used on the prompt
template. -/
def str_format (fields : List (String × String)) (s : List Char) :
    Option (List Char) :=
  formatScan fields s FmtMode.normal

/-- Embedding of `format_auto_rater_prompt` (final_response_match_v2.py,
lines 120-135): extract the reference, response and user-prompt texts,
serialize the actual invocation function specs, and substitute the four
named fields into the prompt template (held by the evaluator as
`self._auto_rater_prompt_template`, passed explicitly here). -/
def format_auto_rater_prompt (auto_rater_prompt_template : String)
    (actual_invocation expected_invocation : Invocation) : Option String :=
  let reference := get_text_from_content expected_invocation.final_response
  let response := get_text_from_content actual_invocation.final_response
  let user_prompt := get_text_from_content expected_invocation.user_content
  let function_api_spec :=
    _format_function_api_spec actual_invocation.function_api_spec
  (str_format
    [("function_api_spec", function_api_spec), ("prompt", user_prompt),
     ("response", response), ("golden_response", reference)]
    auto_rater_prompt_template.toList).map String.mk


/-! ### Specification-side view of the aggregator (spec section 4.3), used to
state the refinement claims about `aggregate_invocation_results`. -/

/-- Specification-side predicate: a result is "evaluated" iff its score is
not null AND its status is not NOT_EVALUATED. -/
def specEvaluated (r : PerInvocationResult) : Bool :=
  r.score.isSome && decide (r.eval_status ≠ EvalStatus.NOT_EVALUATED)

/-- Specification-side numerator: the sum of the scores of the evaluated
results. -/
def specScoreSum (rs : List PerInvocationResult) : ℚ :=
  ((rs.filter specEvaluated).map (fun r => r.score.getD 0)).sum

/-- Specification-side denominator: the count of the evaluated results. -/
def specEvaluatedCount (rs : List PerInvocationResult) : Nat :=
  (rs.filter specEvaluated).length

theorem foldl_aggregateStep (rs : List PerInvocationResult) :
    ∀ (a : ℚ) (n : Nat),
      rs.foldl aggregateStep (a, n) =
        (a + specScoreSum rs, n + specEvaluatedCount rs) := by
  induction rs with
  | nil => intro a n; simp [specScoreSum, specEvaluatedCount]
  | cons r t ih =>
      intro a n
      rcases hs : r.score with _ | s
      · have hev : specEvaluated r = false := by simp [specEvaluated, hs]
        simp [aggregateStep, hs, specScoreSum, specEvaluatedCount,
          List.filter_cons, hev, ih]
      · by_cases hst : r.eval_status = EvalStatus.NOT_EVALUATED
        · have hev : specEvaluated r = false := by simp [specEvaluated, hst]
          simp [aggregateStep, hs, hst, specScoreSum, specEvaluatedCount,
            List.filter_cons, hev, ih]
        · have hev : specEvaluated r = true := by simp [specEvaluated, hs, hst]
          simp only [List.foldl_cons, aggregateStep, hs, if_neg hst, ih,
            specScoreSum, specEvaluatedCount, List.filter_cons, hev, if_pos,
            List.map_cons, List.sum_cons, List.length_cons, Prod.mk.injEq,
            Option.getD_some]
          refine ⟨by ring, by omega⟩

/-- Characterization of the aggregator: it returns the spec-side mean of
the evaluated scores, the thresholded status, and the unchanged input list,
or a ZeroDivisionError when no result is evaluated. -/
theorem aggregate_invocation_results_eq (m : EvalMetric)
    (rs : List PerInvocationResult) :
    aggregate_invocation_results m rs =
      if specEvaluatedCount rs = 0 then
        Except.error PyArithError.zeroDivisionError
      else
        Except.ok
          { overall_score := specScoreSum rs / (specEvaluatedCount rs : ℚ)
            overall_eval_status :=
              get_eval_status (specScoreSum rs / (specEvaluatedCount rs : ℚ))
                m.threshold
            per_invocation_results := rs } := by
  unfold aggregate_invocation_results
  rw [foldl_aggregateStep]
  simp

theorem specEvaluatedCount_ne_zero {rs : List PerInvocationResult}
    (h : ∃ r ∈ rs, specEvaluated r = true) : specEvaluatedCount rs ≠ 0 := by
  obtain ⟨r, hm, hp⟩ := h
  have hmem : r ∈ rs.filter specEvaluated := List.mem_filter.mpr ⟨hm, hp⟩
  have : rs.filter specEvaluated ≠ [] := List.ne_nil_of_mem hmem
  simpa [specEvaluatedCount] using this

/-! ### Concrete fixtures -/

/-- Trivial invocation used by concrete aggregation fixtures. -/
def invW : Invocation :=
  { user_content := { parts := [], role := "user" }
    final_response := { parts := [], role := "model" } }

/-- Builds a per-invocation result over the trivial invocation. -/
def mkResult (sc : Option ℚ) (st : EvalStatus) : PerInvocationResult :=
  { actual_invocation := invW, expected_invocation := invW
    score := sc, eval_status := st }

/-- Metric fixture with threshold 0.5, as in the spec aggregation example. -/
def metricW : EvalMetric :=
  { metric_name := "final_response_match_v2", threshold := 1/2 }

/-- The spec aggregation example: scores [1, 1, 0, 0] PASSED/FAILED, one
null score, one NOT_EVALUATED carrying 100.0, one NOT_EVALUATED with null
score. -/
def rsSpecExample : List PerInvocationResult :=
  [mkResult (some 1) EvalStatus.PASSED,
   mkResult (some 1) EvalStatus.PASSED,
   mkResult (some 0) EvalStatus.FAILED,
   mkResult (some 0) EvalStatus.FAILED,
   mkResult none EvalStatus.PASSED,
   mkResult (some 100) EvalStatus.NOT_EVALUATED,
   mkResult none EvalStatus.NOT_EVALUATED]

/-- List with no evaluated result. -/
def rsUnevaluated : List PerInvocationResult :=
  [mkResult none EvalStatus.PASSED,
   mkResult (some 100) EvalStatus.NOT_EVALUATED,
   mkResult none EvalStatus.NOT_EVALUATED]

/-! ### Claim C1 -/

/-- C1: for every list of PerInvocationResult containing at least one
result whose score is not null and whose status is not NOT_EVALUATED,
`aggregate_invocation_results` returns overall_score equal to (sum of the
scores of such results) / (count of such results); every result with a
null score or with status NOT_EVALUATED — including one carrying a
non-null score such as 100.0 — contributes to neither the numerator nor
the denominator. -/
theorem aggregate_overall_score_is_mean (m : EvalMetric)
    (rs : List PerInvocationResult) (h : ∃ r ∈ rs, specEvaluated r = true) :
    ∃ res, aggregate_invocation_results m rs = Except.ok res ∧
      res.overall_score = specScoreSum rs / (specEvaluatedCount rs : ℚ) := by
  rw [aggregate_invocation_results_eq, if_neg (specEvaluatedCount_ne_zero h)]
  exact ⟨_, rfl, rfl⟩

/-- Witness for C1 at the spec aggregation example: the mean is taken over
the four evaluated results only. -/
theorem aggregate_overall_score_is_mean_witness :
    (∃ r ∈ rsSpecExample, specEvaluated r = true) ∧
      ∃ res, aggregate_invocation_results metricW rsSpecExample =
          Except.ok res ∧
        res.overall_score =
          specScoreSum rsSpecExample / (specEvaluatedCount rsSpecExample : ℚ) :=
  ⟨by decide, aggregate_overall_score_is_mean metricW rsSpecExample (by decide)⟩

/-! ### Claim C2 -/

/-- C2: for every list of PerInvocationResult with at least one evaluated
result and every EvalMetric threshold, the overall_eval_status returned by
`aggregate_invocation_results` is PASSED when the computed overall score is
greater than or equal to the metric threshold, and FAILED otherwise. -/
theorem aggregate_status_thresholded (m : EvalMetric)
    (rs : List PerInvocationResult) (h : ∃ r ∈ rs, specEvaluated r = true) :
    ∃ res, aggregate_invocation_results m rs = Except.ok res ∧
      res.overall_eval_status =
        if specScoreSum rs / (specEvaluatedCount rs : ℚ) ≥ m.threshold then
          EvalStatus.PASSED
        else EvalStatus.FAILED := by
  rw [aggregate_invocation_results_eq, if_neg (specEvaluatedCount_ne_zero h)]
  exact ⟨_, rfl, rfl⟩

/-- Witness for C2 at the spec aggregation example with threshold 0.5. -/
theorem aggregate_status_thresholded_witness :
    (∃ r ∈ rsSpecExample, specEvaluated r = true) ∧
      ∃ res, aggregate_invocation_results metricW rsSpecExample =
          Except.ok res ∧
        res.overall_eval_status =
          if specScoreSum rsSpecExample /
              (specEvaluatedCount rsSpecExample : ℚ) ≥ metricW.threshold then
            EvalStatus.PASSED
          else EvalStatus.FAILED :=
  ⟨by decide, aggregate_status_thresholded metricW rsSpecExample (by decide)⟩

/-! ### Claim C3 -/

/-- C3: for every list of PerInvocationResult in which no result is
evaluated (every result has a null score or status NOT_EVALUATED,
including the empty list), `aggregate_invocation_results` raises a
division-by-zero arithmetic error to the caller; it does not return a
default or sentinel result. -/
theorem aggregate_raises_on_no_evaluated (m : EvalMetric)
    (rs : List PerInvocationResult) (h : ∀ r ∈ rs, specEvaluated r = false) :
    aggregate_invocation_results m rs =
      Except.error PyArithError.zeroDivisionError := by
  have hc : specEvaluatedCount rs = 0 := by
    have : rs.filter specEvaluated = [] := by
      rw [List.filter_eq_nil_iff]
      intro r hr
      simp [h r hr]
    simp [specEvaluatedCount, this]
  rw [aggregate_invocation_results_eq, if_pos hc]

/-- Witness for C3 at a list whose results all have a null score or status
NOT_EVALUATED. -/
theorem aggregate_raises_on_no_evaluated_witness :
    (∀ r ∈ rsUnevaluated, specEvaluated r = false) ∧
      aggregate_invocation_results metricW rsUnevaluated =
        Except.error PyArithError.zeroDivisionError :=
  ⟨by decide, aggregate_raises_on_no_evaluated metricW rsUnevaluated (by decide)⟩

/-! ### Claim C9 -/

/-- Single result carrying a score of 100.0 with status PASSED: it is
evaluated, so the aggregator averages it as-is. -/
def rsOutOfRange : List PerInvocationResult :=
  [mkResult (some 100) EvalStatus.PASSED]

/-- Counterexample to C9 as stated: on an input list whose one evaluated
result carries score 100.0, the aggregator returns overall_score 100,
which is not in the closed interval [0, 1]. -/
theorem aggregate_score_not_always_in_unit_interval :
    (∃ res, aggregate_invocation_results metricW rsOutOfRange =
        Except.ok res ∧ res.overall_score = 100) ∧
      ¬ ((100 : ℚ) ≤ 1) := by
  have hval : specScoreSum rsOutOfRange /
      (specEvaluatedCount rsOutOfRange : ℚ) = 100 := by
    simp [specScoreSum, specEvaluatedCount, rsOutOfRange, mkResult,
      specEvaluated]
  refine ⟨⟨{ overall_score := specScoreSum rsOutOfRange /
               (specEvaluatedCount rsOutOfRange : ℚ)
             overall_eval_status :=
               get_eval_status (specScoreSum rsOutOfRange /
                 (specEvaluatedCount rsOutOfRange : ℚ)) metricW.threshold
             per_invocation_results := rsOutOfRange }, ?_, hval⟩, by norm_num⟩
  rw [aggregate_invocation_results_eq, if_neg (by decide)]

/-- C9 amended: for every input list with at least one evaluated result,
if every evaluated result carries a score in [0, 1], then the returned
overall_score is in the closed interval [0, 1]. -/
theorem aggregate_score_in_unit_interval (m : EvalMetric)
    (rs : List PerInvocationResult) (h : ∃ r ∈ rs, specEvaluated r = true)
    (hbd : ∀ r ∈ rs, specEvaluated r = true →
      0 ≤ r.score.getD 0 ∧ r.score.getD 0 ≤ 1) :
    ∃ res, aggregate_invocation_results m rs = Except.ok res ∧
      0 ≤ res.overall_score ∧ res.overall_score ≤ 1 := by
  have hbounds : 0 ≤ specScoreSum rs ∧
      specScoreSum rs ≤ (specEvaluatedCount rs : ℚ) := by
    clear h
    induction rs with
    | nil => simp [specScoreSum, specEvaluatedCount]
    | cons r t ih =>
        have hbt : ∀ x ∈ t, specEvaluated x = true →
            0 ≤ x.score.getD 0 ∧ x.score.getD 0 ≤ 1 :=
          fun x hx => hbd x (List.mem_cons_of_mem _ hx)
        obtain ⟨ih1, ih2⟩ := ih hbt
        by_cases hev : specEvaluated r = true
        · obtain ⟨hb1, hb2⟩ := hbd r (List.mem_cons_self r t) hev
          simp only [specScoreSum, specEvaluatedCount, List.filter_cons, hev,
            if_pos, List.map_cons, List.sum_cons, List.length_cons] at *
          constructor
          · exact add_nonneg hb1 ih1
          · push_cast
            calc r.score.getD 0 +
                  (List.map (fun x => x.score.getD 0)
                    (List.filter specEvaluated t)).sum ≤
                1 + ((List.filter specEvaluated t).length : ℚ) :=
                  add_le_add hb2 ih2
              _ = ((List.filter specEvaluated t).length : ℚ) + 1 := by ring
        · simp only [specScoreSum, specEvaluatedCount, List.filter_cons,
            hev] at *
          simp only [Bool.false_eq_true, if_false]
          exact ⟨ih1, ih2⟩
  have hc := specEvaluatedCount_ne_zero h
  have hpos : (0 : ℚ) < (specEvaluatedCount rs : ℚ) := by
    exact_mod_cast Nat.pos_of_ne_zero hc
  rw [aggregate_invocation_results_eq, if_neg hc]
  refine ⟨_, rfl, ?_, ?_⟩
  · exact div_nonneg hbounds.1 (le_of_lt hpos)
  · rw [div_le_one hpos]
    exact hbounds.2

/-- Witness for the amended C9 at the spec aggregation example, whose
evaluated scores are all 0 or 1 (the out-of-range 100.0 is carried by a
NOT_EVALUATED result and is ignored). -/
theorem aggregate_score_in_unit_interval_witness :
    ((∃ r ∈ rsSpecExample, specEvaluated r = true) ∧
      (∀ r ∈ rsSpecExample, specEvaluated r = true →
        0 ≤ r.score.getD 0 ∧ r.score.getD 0 ≤ 1)) ∧
      ∃ res, aggregate_invocation_results metricW rsSpecExample =
          Except.ok res ∧ 0 ≤ res.overall_score ∧ res.overall_score ≤ 1 :=
  ⟨⟨by decide, by decide⟩,
    aggregate_score_in_unit_interval metricW rsSpecExample (by decide) (by decide)⟩

/-! ### Claim C10 -/

/-- C10: `aggregate_invocation_results` returns the input list of
PerInvocationResult as its per_invocation_results in the same order and
leaves every element unchanged (the returned list is the input list
itself, so no element score or eval_status differs). -/
theorem aggregate_preserves_results (m : EvalMetric)
    (rs : List PerInvocationResult) (res : EvaluationResult)
    (h : aggregate_invocation_results m rs = Except.ok res) :
    res.per_invocation_results = rs := by
  rw [aggregate_invocation_results_eq] at h
  by_cases hc : specEvaluatedCount rs = 0
  · rw [if_pos hc] at h
    cases h
  · rw [if_neg hc] at h
    cases h
    rfl

/-- Single evaluated result used by the C10 witness. -/
def rsSingle : List PerInvocationResult := [mkResult (some 1) EvalStatus.PASSED]

/-- Result value produced by the aggregator on `rsSingle`. -/
def resSingle : EvaluationResult :=
  { overall_score := 1, overall_eval_status := EvalStatus.PASSED
    per_invocation_results := rsSingle }

/-- Concrete aggregation run used by the C10 witness. -/
theorem aggregate_eq_resSingle :
    aggregate_invocation_results metricW rsSingle = Except.ok resSingle := by
  rw [aggregate_invocation_results_eq, if_neg (by decide)]
  have h1 : specScoreSum rsSingle = 1 := by
    simp [specScoreSum, rsSingle, mkResult, specEvaluated]
  have h2 : specEvaluatedCount rsSingle = 1 := by decide
  simp [h1, h2, resSingle, get_eval_status, metricW]
  norm_num

/-- Witness for C10 at a concrete aggregation run. -/
theorem aggregate_preserves_results_witness :
    aggregate_invocation_results metricW rsSingle = Except.ok resSingle ∧
      resSingle.per_invocation_results = rsSingle :=
  ⟨aggregate_eq_resSingle,
    aggregate_preserves_results metricW rsSingle resSingle aggregate_eq_resSingle⟩

/-! ### Claim C4 -/

/-- Wraps a judge text into an LlmResponse with a single textual part. -/
def mkJudgeResponse (t : String) : LlmResponse :=
  { content := { parts := [{ text := some t }], role := "model" } }

/-- Judge text with the value as a bare quoted string. -/
def judgeValidBare : String :=
  "\x7b\n  \"is_the_agent_response_valid\": \"valid\",\n  \"reasoning\": \"The response is valid.\"\n\x7d"

/-- Judge text with the value as a single-element list. -/
def judgeValidList : String :=
  "\x7b\n  \"is_the_agent_response_valid\": [\"valid\"],\n  \"reasoning\": \"The response is valid.\"\n\x7d"

/-- Judge text with an embedded newline before the closing quote of the
value. -/
def judgeValidNewline : String :=
  "\x7b\n  \"is_the_agent_response_valid\":\n    [ \"valid\n\"],\n  \"reasoning\": \"The response is valid.\"\n\x7d"

/-- Judge text with value invalid as a bare quoted string. -/
def judgeInvalidBare : String :=
  "\x7b\n  \"is_the_agent_response_valid\": \"invalid\",\n  \"reasoning\": \"The response is invalid.\"\n\x7d"

/-- Judge text with value invalid as a single-element list. -/
def judgeInvalidList : String :=
  "\x7b\n  \"is_the_agent_response_valid\": [\"invalid\"],\n  \"reasoning\": \"The response is invalid.\"\n\x7d"

/-- Judge text with value invalid and an embedded newline before the
closing quote. -/
def judgeInvalidNewline : String :=
  "\x7b\n  \"is_the_agent_response_valid\":\n    [ \"invalid\n\"],\n  \"reasoning\": \"The response is invalid.\"\n\x7d"

/-! ### Claim C6 -/

/-- C6: for every judge response whose extracted label is neither "valid"
nor "invalid" — including no label at all — the embedded
`convert_auto_rater_response_to_score` returns a null score; being a total
Lean function it returns (rather than raises) on every input, mirroring
the source where the failure is logged, not raised. -/
theorem convert_score_none_on_bad_label (llm_response : LlmResponse)
    (l : Option String)
    (h : _extract_validity_label
      (pyStrip (get_text_from_content llm_response.content)) = l)
    (hv : l ≠ some "valid") (hi : l ≠ some "invalid") :
    convert_auto_rater_response_to_score llm_response = none := by
  simp only [convert_auto_rater_response_to_score]
  rw [h, if_neg hv, if_neg hi]

/-- Witness for C6 at the judge text "invalid json", which yields no
label. -/
theorem convert_score_none_on_bad_label_witness :
    (_extract_validity_label
      (pyStrip (get_text_from_content (mkJudgeResponse "invalid json").content)) =
        none) ∧
      convert_auto_rater_response_to_score (mkJudgeResponse "invalid json") =
        none :=
  ⟨by decide,
    convert_score_none_on_bad_label (mkJudgeResponse "invalid json") none
      (by decide) (by decide) (by decide)⟩

/-! ### Structural facts about the backtracking matcher, needed for the
claims about the shape of extracted labels and about the fallback key. -/

theorem starBT_eq_some {p : Char → Bool} {s : List Char}
    {k : List Char → Option (List Char)} {r : List Char}
    (h : starBT p s k = some r) : ∃ rest, rest <:+ s ∧ k rest = some r := by
  induction s with
  | nil => exact ⟨[], List.suffix_refl [], by simpa [starBT] using h⟩
  | cons c cs ih =>
      by_cases hp : p c
      · rw [starBT, if_pos hp] at h
        rcases (Option.orElse_eq_some _ _ _).mp h with h1 | ⟨_, h2⟩
        · obtain ⟨rest, hsuf, hk⟩ := ih h1
          exact ⟨rest, hsuf.trans (List.suffix_cons c cs), hk⟩
        · exact ⟨c :: cs, List.suffix_refl _, h2⟩
      · rw [starBT, if_neg hp] at h
        exact ⟨c :: cs, List.suffix_refl _, h⟩

theorem groupBT_eq_some {p : Char → Bool} {s : List Char}
    {k : List Char → List Char → Option (List Char)} {r : List Char}
    (h : groupBT p s k = some r) :
    ∃ g rest, rest <:+ s ∧ (∀ c ∈ g, p c = true) ∧ k g rest = some r := by
  induction s generalizing k with
  | nil =>
      exact ⟨[], [], List.suffix_refl [], by simp, by simpa [groupBT] using h⟩
  | cons c cs ih =>
      by_cases hp : p c
      · rw [groupBT, if_pos hp] at h
        rcases (Option.orElse_eq_some _ _ _).mp h with h1 | ⟨_, h2⟩
        · obtain ⟨g, rest, hsuf, hall, hk⟩ := ih h1
          refine ⟨c :: g, rest, hsuf.trans (List.suffix_cons c cs), ?_, hk⟩
          intro x hx
          rcases List.mem_cons.mp hx with hx | hx
          · exact hx ▸ hp
          · exact hall x hx
        · exact ⟨[], c :: cs, List.suffix_refl _, by simp, h2⟩
      · rw [groupBT, if_neg hp] at h
        exact ⟨[], c :: cs, List.suffix_refl _, by simp, h⟩

theorem matchValueTail_eq_some {s g : List Char}
    (h : matchValueTail s = some g) :
    (∀ c ∈ g, isValueChar c = true) ∧ ∃ c ∈ s, isTerminator c = true := by
  unfold matchValueTail at h
  obtain ⟨s1, hs1, h⟩ := starBT_eq_some h
  obtain ⟨s2, hs2, h⟩ := starBT_eq_some h
  obtain ⟨s3, hs3, h⟩ := starBT_eq_some h
  obtain ⟨s4, hs4, h⟩ := starBT_eq_some h
  obtain ⟨g0, s5, hs5, hall, h⟩ := groupBT_eq_some h
  obtain ⟨s6, hs6, h⟩ := starBT_eq_some h
  obtain ⟨s7, hs7, h⟩ := starBT_eq_some h
  obtain ⟨s8, hs8, h⟩ := starBT_eq_some h
  obtain ⟨s9, hs9, h⟩ := starBT_eq_some h
  have hsuf : s9 <:+ s :=
    (((((((hs9.trans hs8).trans hs7).trans hs6).trans hs5).trans
      hs4).trans hs3).trans hs2).trans hs1
  cases s9 with
  | nil => simp at h
  | cons c rest =>
      by_cases ht : isTerminator c
      · simp only [ht, if_true] at h
        cases h
        exact ⟨hall, c, hsuf.subset (List.mem_cons_self c rest), ht⟩
      · simp [ht] at h

theorem matchLiteral_suffix {lit s r : List Char}
    (h : matchLiteral lit s = some r) : r <:+ s := by
  induction lit generalizing s with
  | nil =>
      cases h
      exact List.suffix_refl _
  | cons l ls ih =>
      cases s with
      | nil => simp [matchLiteral] at h
      | cons c cs =>
          rw [matchLiteral] at h
          by_cases he : l = c
          · rw [if_pos he] at h
            exact (ih h).trans (List.suffix_cons c cs)
          · rw [if_neg he] at h
            simp at h

theorem matchLiteral_append {p q s : List Char} :
    matchLiteral (p ++ q) s = (matchLiteral p s).bind (matchLiteral q) := by
  induction p generalizing s with
  | nil => simp [matchLiteral]
  | cons l ls ih =>
      cases s with
      | nil => simp [matchLiteral]
      | cons c cs =>
          rw [List.cons_append, matchLiteral, matchLiteral]
          by_cases he : l = c
          · rw [if_pos he, if_pos he, ih]
          · rw [if_neg he, if_neg he]
            rfl

theorem searchKey_eq_some {key t g : List Char}
    (h : searchKey key t = some g) :
    (∀ c ∈ g, isValueChar c = true) ∧ ∃ c ∈ t, isTerminator c = true := by
  induction t with
  | nil => simp [searchKey] at h
  | cons c cs ih =>
      rw [searchKey] at h
      cases hm : matchLiteral key (c :: cs) with
      | none =>
          rw [hm] at h
          obtain ⟨h1, x, hx, ht⟩ := ih h
          exact ⟨h1, x, List.mem_cons_of_mem c hx, ht⟩
      | some rest =>
          rw [hm] at h
          rcases (Option.orElse_eq_some _ _ _).mp h with h1 | ⟨_, h2⟩
          · obtain ⟨hg, x, hx, ht⟩ := matchValueTail_eq_some h1
            exact ⟨hg, x, (matchLiteral_suffix hm).subset hx, ht⟩
          · obtain ⟨h1, x, hx, ht⟩ := ih h2
            exact ⟨h1, x, List.mem_cons_of_mem c hx, ht⟩

/-! ### Claim C8 -/

/-- Judge text whose extracted label is the digit string 123, not a word of
letters. -/
def judgeNumericLabel : String := "\"is_the_agent_response_valid\": \"123\","

/-- Counterexample to C8 as stated: label extraction succeeds on a judge
text carrying the value 123, and the extracted value is not made of
letters only. -/
theorem extract_label_not_letters_only :
    _extract_validity_label judgeNumericLabel = some "123" ∧
      ¬ (∀ c ∈ "123".toList, c.isAlpha = true) := by
  exact ⟨by decide, by decide⟩

/-- C8 amended: for every judge text in which label extraction succeeds,
every character of the extracted value lies in the class `[^"^\]^\s]` of
the pattern — no double quote, no caret, no closing square bracket, no
whitespace — and the text contains a terminator character (comma, newline
or closing brace) at the position that ended the match. -/
theorem extract_label_charclass (t g : String)
    (h : _extract_validity_label t = some g) :
    (∀ c ∈ g.toList, isValueChar c = true) ∧
      ∃ c ∈ t.toList, isTerminator c = true := by
  unfold _extract_validity_label at h
  cases hv : searchKey validKeyLit t.toList with
  | some gl =>
      rw [hv] at h
      cases h
      exact searchKey_eq_some hv
  | none =>
      rw [hv] at h
      cases hi : searchKey invalidKeyLit t.toList with
      | some gl =>
          rw [hi] at h
          cases h
          exact searchKey_eq_some hi
      | none =>
          rw [hi] at h
          cases h

/-- Witness for the amended C8 at a concrete judge text. -/
theorem extract_label_charclass_witness :
    (_extract_validity_label judgeValidBare = some "valid") ∧
      ((∀ c ∈ "valid".toList, isValueChar c = true) ∧
        ∃ c ∈ judgeValidBare.toList, isTerminator c = true) :=
  ⟨by decide, extract_label_charclass judgeValidBare "valid" (by decide)⟩

/-! ### Claim C5 -/

/-- Substring test (for stating when a key occurs in a judge text): does
`pat` occur as a contiguous run at any position of the text. -/
def hasSubstring (pat : List Char) : List Char → Bool
  | [] => (matchLiteral pat []).isSome
  | c :: cs => (matchLiteral pat (c :: cs)).isSome || hasSubstring pat cs

theorem searchKey_eq_none_of_not_hasSubstring {pat q t : List Char}
    (h : hasSubstring pat t = false) : searchKey (pat ++ q) t = none := by
  induction t with
  | nil => rw [searchKey]
  | cons c cs ih =>
      rw [hasSubstring, Bool.or_eq_false_iff] at h
      obtain ⟨h1, h2⟩ := h
      rw [searchKey]
      cases hm : matchLiteral (pat ++ q) (c :: cs) with
      | none => exact ih h2
      | some rest =>
          exfalso
          rw [matchLiteral_append] at hm
          cases hp : matchLiteral pat (c :: cs) with
          | none => rw [hp] at hm; simp at hm
          | some _ => rw [hp] at h1; simp at h1

/-- C5 amended: label extraction falls back to the
is_the_agent_response_invalid pattern exactly when the
is_the_agent_response_valid pattern fails to match — which is implied by,
but not equivalent to, the quoted key being absent from the judge text.
Stated here in its provable direction: whenever the quoted key
`"is_the_agent_response_valid"` does not occur in the text, the result is
whatever the fallback pattern yields (so a text with only the `_invalid`
key yields that key's value, and a text with neither key yields null). -/
theorem extract_falls_back_when_valid_key_absent (t : String)
    (h : hasSubstring validKeyQuoted t.toList = false) :
    _extract_validity_label t =
      (searchKey invalidKeyLit t.toList).map String.mk := by
  unfold _extract_validity_label
  have hlit : validKeyLit = validKeyQuoted ++ [Char.ofNat 0x3a] := by decide
  rw [hlit, searchKey_eq_none_of_not_hasSubstring h]
  cases searchKey invalidKeyLit t.toList with
  | none => rfl
  | some g => rfl

/-- Judge text containing the `_valid` key with an unterminated value (no
comma, newline or brace follows, so the first pattern fails) together with
a matching `_invalid` key.  Label extraction falls back and returns the
value of the `_invalid` key even though the `_valid` key is present. -/
def judgeValidKeyUnterminated : String :=
  "\"is_the_agent_response_invalid\": \"bad\",\n\"is_the_agent_response_valid\": \"valid\""

/-- Counterexample to C5 as stated: the quoted key
`"is_the_agent_response_valid"` is present in the text, yet extraction
falls back to the `_invalid` key and returns its value "bad". -/
theorem extract_falls_back_despite_valid_key_present :
    hasSubstring validKeyQuoted judgeValidKeyUnterminated.toList = true ∧
      _extract_validity_label judgeValidKeyUnterminated = some "bad" := by
  exact ⟨by decide, by decide⟩

/-- Judge text containing only the fallback key. -/
def judgeOnlyInvalidKey : String :=
  "\x7b\"is_the_agent_response_invalid\": \"invalid\",\n\x7d"

/-- Witness for the amended C5 at a text containing only the fallback key:
extraction returns that key's value. -/
theorem extract_falls_back_when_valid_key_absent_witness :
    (hasSubstring validKeyQuoted judgeOnlyInvalidKey.toList = false) ∧
      _extract_validity_label judgeOnlyInvalidKey =
        (searchKey invalidKeyLit judgeOnlyInvalidKey.toList).map String.mk :=
  ⟨by decide,
    extract_falls_back_when_valid_key_absent judgeOnlyInvalidKey (by decide)⟩

/-! ### Compositional evaluation of the format scanner, used to run
`str_format` over the full prompt template piece by piece. -/

/-- The opening brace character. -/
def openBr : Char := Char.ofNat 0x7b

/-- The closing brace character. -/
def closeBr : Char := Char.ofNat 0x7d

/-- Characters copied verbatim by the format scanner (neither brace). -/
def isPlainChar (c : Char) : Bool := !(c.toNat = 0x7b || c.toNat = 0x7d)

theorem toList_append (s t : String) :
    (s ++ t).toList = s.toList ++ t.toList := rfl

theorem mk_append_toList (s : String) (l : List Char) :
    String.mk (s.toList ++ l) = s ++ String.mk l := rfl

theorem mk_toList (s : String) : String.mk s.toList = s := rfl

theorem mk_cons_open (l : List Char) :
    String.mk (openBr :: l) = "\x7b" ++ String.mk l := rfl

theorem mk_cons_close (l : List Char) :
    String.mk (closeBr :: l) = "\x7d" ++ String.mk l := rfl

theorem fmt_nil (fields : List (String × String)) :
    formatScan fields [] FmtMode.normal = some [] := rfl

theorem fmt_copy {fields : List (String × String)} {pre rest r : List Char}
    (h : pre.all isPlainChar = true)
    (hrest : formatScan fields rest FmtMode.normal = some r) :
    formatScan fields (pre ++ rest) FmtMode.normal = some (pre ++ r) := by
  induction pre with
  | nil => simpa using hrest
  | cons c cs ih =>
      rw [List.all_cons, Bool.and_eq_true] at h
      have h1 : ¬(c.toNat = 0x7b) ∧ ¬(c.toNat = 0x7d) := by
        have hb := h.1
        simp [isPlainChar] at hb
        exact hb
      rw [List.cons_append]
      simp only [formatScan]
      rw [if_neg h1.1, if_neg h1.2, ih h.2]
      rfl

theorem fmt_openEsc {fields : List (String × String)} {rest r : List Char}
    (h : formatScan fields rest FmtMode.normal = some r) :
    formatScan fields ("\x7b\x7b".toList ++ rest) FmtMode.normal =
      some (openBr :: r) := by
  have e : formatScan fields ("\x7b\x7b".toList ++ rest) FmtMode.normal =
      (formatScan fields rest FmtMode.normal).map (fun x => openBr :: x) := rfl
  rw [e, h]
  rfl

theorem fmt_closeEsc {fields : List (String × String)} {rest r : List Char}
    (h : formatScan fields rest FmtMode.normal = some r) :
    formatScan fields ("\x7d\x7d".toList ++ rest) FmtMode.normal =
      some (closeBr :: r) := by
  have e : formatScan fields ("\x7d\x7d".toList ++ rest) FmtMode.normal =
      (formatScan fields rest FmtMode.normal).map (fun x => closeBr :: x) := rfl
  rw [e, h]
  rfl

theorem fmt_fieldAcc {fields : List (String × String)} {v : String}
    {rest r : List Char} (rem : List Char) :
    ∀ acc : List Char, rem.all isPlainChar = true →
      fields.lookup (String.mk (acc.reverse ++ rem)) = some v →
      formatScan fields rest FmtMode.normal = some r →
      formatScan fields (rem ++ closeBr :: rest) (FmtMode.fieldName acc) =
        some (v.toList ++ r) := by
  induction rem with
  | nil =>
      intro acc _ hv h
      have e : formatScan fields (closeBr :: rest) (FmtMode.fieldName acc) =
          match fields.lookup (String.mk acc.reverse) with
          | some w => (formatScan fields rest FmtMode.normal).map
              (fun x => w.toList ++ x)
          | none => none := rfl
      rw [List.append_nil] at hv
      rw [List.nil_append, e, hv, h]
      rfl
  | cons c cs ih =>
      intro acc hall hv h
      rw [List.all_cons, Bool.and_eq_true] at hall
      have h1 : ¬(c.toNat = 0x7b) ∧ ¬(c.toNat = 0x7d) := by
        have hb := hall.1
        simp [isPlainChar] at hb
        exact hb
      rw [List.cons_append]
      simp only [formatScan]
      rw [if_neg h1.2]
      apply ih (c :: acc) hall.2 ?_ h
      rw [List.reverse_cons, List.append_assoc, List.singleton_append]
      exact hv

theorem fmt_afterOpenName {fields : List (String × String)} {v : String}
    {rest r : List Char} (nm : List Char) (hn : nm.all isPlainChar = true)
    (hv : fields.lookup (String.mk nm) = some v)
    (h : formatScan fields rest FmtMode.normal = some r) :
    formatScan fields (nm ++ closeBr :: rest) FmtMode.afterOpen =
      some (v.toList ++ r) := by
  cases nm with
  | nil =>
      have e : formatScan fields (closeBr :: rest) FmtMode.afterOpen =
          match fields.lookup "" with
          | some w => (formatScan fields rest FmtMode.normal).map
              (fun x => w.toList ++ x)
          | none => none := rfl
      have hv2 : fields.lookup "" = some v := hv
      rw [List.nil_append, e, hv2, h]
      rfl
  | cons c cs =>
      rw [List.all_cons, Bool.and_eq_true] at hn
      have h1 : ¬(c.toNat = 0x7b) ∧ ¬(c.toNat = 0x7d) := by
        have hb := hn.1
        simp [isPlainChar] at hb
        exact hb
      rw [List.cons_append]
      simp only [formatScan]
      rw [if_neg h1.1, if_neg h1.2]
      apply fmt_fieldAcc cs [c] hn.2 ?_ h
      exact hv

theorem fmt_field {fields : List (String × String)} {v : String}
    {rest r : List Char} (tok name : String)
    (htok : tok.toList = openBr :: (name.toList ++ [closeBr]))
    (hn : name.toList.all isPlainChar = true)
    (hv : fields.lookup name = some v)
    (h : formatScan fields rest FmtMode.normal = some r) :
    formatScan fields (tok.toList ++ rest) FmtMode.normal =
      some (v.toList ++ r) := by
  rw [htok, List.cons_append, List.append_assoc, List.singleton_append]
  have e : formatScan fields
      (openBr :: (name.toList ++ closeBr :: rest)) FmtMode.normal =
        formatScan fields (name.toList ++ closeBr :: rest) FmtMode.afterOpen :=
    rfl
  rw [e]
  exact fmt_afterOpenName name.toList hn hv h

theorem fmt_copy_end {fields : List (String × String)} {pre : List Char}
    (h : pre.all isPlainChar = true) :
    formatScan fields pre FmtMode.normal = some pre := by
  have e := fmt_copy h (fmt_nil fields)
  simpa using e


/-! ### Claim C7 -/

/-- Actual invocation of the prompt-formatting test: one function spec,
candidate final response. -/
def c7Actual : Invocation :=
  { user_content :=
      { parts := [{ text := some "This is a test query." }], role := "user" }
    final_response :=
      { parts := [{ text := some "candidate text" }], role := "model" }
    function_api_spec := [{ name := "test_tool", description := "description." }] }

/-- Expected invocation of the prompt-formatting test: same query,
reference final response, no function specs. -/
def c7Expected : Invocation :=
  { user_content :=
      { parts := [{ text := some "This is a test query." }], role := "user" }
    final_response :=
      { parts := [{ text := some "reference text" }], role := "model" } }

/-- The serialized function API spec for the single C7 function spec, as
produced by json.dumps. -/
def c7FunctionSpecJson : String :=
  "[\x7b\"Function name\": \"test_tool\", \"Function description\": \"description.\"\x7d]"

/-- The four field values substituted by `format_auto_rater_prompt` on the
C7 invocations. -/
def c7Fields : List (String × String) :=
  [("function_api_spec", c7FunctionSpecJson),
   ("prompt", "This is a test query."),
   ("response", "candidate text"),
   ("golden_response", "reference text")]


/-- Embedding of the module constant FINAL_RESPONSE_MATCH_V2_PROMPT
(final_response_match_v2.py, lines 37-79): the fixed auto-rater prompt
template, written as the concatenation of its literal runs, its escaped
braces and its four replacement fields. -/
def FINAL_RESPONSE_MATCH_V2_PROMPT : String :=
  "\nYou are an expert rater for an AI agent. The AI agent is going to call an API to answer the user query and generate API tool use code based for the choice of the API and API arguments. The ideal model response should be a function call that fulfills"
  ++ " user query, or a natural language response hedges or asks users for further clarification if a function call does not apply.\nThe primary focus of this rating task is to check correctness of the model responses.\n\nThe data consists of:\n"
  ++ "- A set of python function definitions available to the agent.\n- A user query.\n- A model generated response for the prompt. The responses can consist of:\n"
  ++ "  - Natural language, when the model is asking for clarification, or tells the user it does not possess the requested functionality / option.\n"
  ++ "  - Code, in the form of one or multiple python function calls, and additional code as needed, for when the model is fulfilling the user request.\n"
  ++ "You can use the help from a reference response annotated by a human rater. This reference response is of high quality. You can compare the agent\x27s response with the reference response and decide if the agent\x27s response is valid.\n"
  ++ "Note sometimes the reference response only contains the key entities of the correct answer and you need to be flexible to allow the agent response to contain more information than the reference response, or to present the key entities in a different "
  ++ "format or structure or in shorter or longer format.\n"
  ++ "When the agent response is provided in the form of tables/dataframes or should be best provided in the form of tables/dataframes: focus on the key entities and main components requested in the user query and check whether you can retrieve those from "
  ++ "the agent response. Likewise, if you have the reference response, then find out the key entities and main components in them and check whether you can retrieve those from the agent response. If the prompt does not specify any format instructions and "
  ++ "the main items/components are included in the response then tolerate the differences in the formatting of those tables/dataframes.\n\nYou should follow the constitutions below very carefully to rate the model response:\n"
  ++ "- Allow flexibility of format even when reference code only uses one of the possible format, unless API spec or user prompt has explicit format requirement\n"
  ++ "  - e.g. For state name, allow both abbreviation and full name unless API spec has explicit requirement. e.g. both \x27tx\x27 and \x27Texas\x27 should be allowed in the agent response even when reference code only uses one of them.\n"
  ++ "  - e.g. If a reference response list outputs in a list format, the agent response is allowed to use sentence format and vice versa unless user prompt explicitly asks for a specific format.\n"
  ++ "  - e.g. For numbers, allow flexibility of formatting, e.g. 1000000 vs 1,000,000.\n- The model shouldn\x27t assume that it doesn\x27t have access to according data or incapable of answering the question if reference response is able to find a legit answer.\n"
  ++ "- If the model response contains the correct final answer, rate it as valid even when the model response contains more information than the reference response.\n"
  ++ "- If the user prompt has csv or other table format data, don\x27t read it yourself. Trust the reference response final answer instead.\n"
  ++ "- When the validation needs maths, date calculations, do not use your own calculator. Trust the reference response final answer instead.\n"
  ++ "- Be mindful about unit of numbers. For example, if the reference response says 100 miles, but the model response says 100 km, it is invalid.\n"
  ++ "- When the agent response or the reference response is provided in the form of tables/dataframes: focus on the key entities and main components requested in the user query and check whether you can retrieve those from the agent response and whether t"
  ++ "hose match the reference response. If the user query does not specify any format instructions and the main items/components are included in the response then tolerate the differences in the formatting of those tables/dataframes.\n"
  ++ "- When the answer is in numeric format, check whether there are any format requirements in the numeric format, rounding, precision, number of decimals, etc. specified in the user query and the prompt. If there are no such instructions, then tolerate "
  ++ "different numerical formats.\n"
  ++ "- When the answer is in numeric format and there are rounding or precision differences between the agent response and the reference response, if no further instructions are provided evaluate if the rounding strategy or precision in the agent response"
  ++ " follows the standards for that entity. For instance, model accuracy scores must be reported with at least two decimal places (e.g., 0.798 → 0.80 is acceptable,  but 0.7 is not).\n\nBelow are the inputs:\n"
  ++ "\x7b\x7b"
  ++ "\n  \"Function API spec\": "
  ++ "\x7bfunction_api_spec\x7d"
  ++ ",\n  \"User prompt\": "
  ++ "\x7bprompt\x7d"
  ++ ",\n  \"Agent response\": "
  ++ "\x7bresponse\x7d"
  ++ ",\n  \"Reference response\": "
  ++ "\x7bgolden_response\x7d"
  ++ ",\n"
  ++ "\x7d\x7d"
  ++ "\n\nThe answer should be a json alone which follows the json structure below:\n"
  ++ "\x7b\x7b"
  ++ "\n  \"is_the_agent_response_valid\": [valid or invalid],\n  \"reasoning\":\n"
  ++ "\x7d\x7d"
  ++ "\nAnswer with assertiveness:\n"

/-- The prompt produced for the C7 test invocations: the template with
the four fields substituted and the escaped braces unescaped. -/
def c7Prompt : String :=
  ("\nYou are an expert rater for an AI agent. The AI agent is going to call an API to answer the user query and generate API tool use code based for the choice of the API and API arguments. The ideal model response should be a function call that fulfills" ++
  (" user query, or a natural language response hedges or asks users for further clarification if a function call does not apply.\nThe primary focus of this rating task is to check correctness of the model responses.\n\nThe data consists of:\n" ++
  ("- A set of python function definitions available to the agent.\n- A user query.\n- A model generated response for the prompt. The responses can consist of:\n" ++
  ("  - Natural language, when the model is asking for clarification, or tells the user it does not possess the requested functionality / option.\n" ++
  ("  - Code, in the form of one or multiple python function calls, and additional code as needed, for when the model is fulfilling the user request.\n" ++
  ("You can use the help from a reference response annotated by a human rater. This reference response is of high quality. You can compare the agent\x27s response with the reference response and decide if the agent\x27s response is valid.\n" ++
  ("Note sometimes the reference response only contains the key entities of the correct answer and you need to be flexible to allow the agent response to contain more information than the reference response, or to present the key entities in a different " ++
  ("format or structure or in shorter or longer format.\n" ++
  ("When the agent response is provided in the form of tables/dataframes or should be best provided in the form of tables/dataframes: focus on the key entities and main components requested in the user query and check whether you can retrieve those from " ++
  ("the agent response. Likewise, if you have the reference response, then find out the key entities and main components in them and check whether you can retrieve those from the agent response. If the prompt does not specify any format instructions and " ++
  ("the main items/components are included in the response then tolerate the differences in the formatting of those tables/dataframes.\n\nYou should follow the constitutions below very carefully to rate the model response:\n" ++
  ("- Allow flexibility of format even when reference code only uses one of the possible format, unless API spec or user prompt has explicit format requirement\n" ++
  ("  - e.g. For state name, allow both abbreviation and full name unless API spec has explicit requirement. e.g. both \x27tx\x27 and \x27Texas\x27 should be allowed in the agent response even when reference code only uses one of them.\n" ++
  ("  - e.g. If a reference response list outputs in a list format, the agent response is allowed to use sentence format and vice versa unless user prompt explicitly asks for a specific format.\n" ++
  ("  - e.g. For numbers, allow flexibility of formatting, e.g. 1000000 vs 1,000,000.\n- The model shouldn\x27t assume that it doesn\x27t have access to according data or incapable of answering the question if reference response is able to find a legit answer.\n" ++
  ("- If the model response contains the correct final answer, rate it as valid even when the model response contains more information than the reference response.\n" ++
  ("- If the user prompt has csv or other table format data, don\x27t read it yourself. Trust the reference response final answer instead.\n" ++
  ("- When the validation needs maths, date calculations, do not use your own calculator. Trust the reference response final answer instead.\n" ++
  ("- Be mindful about unit of numbers. For example, if the reference response says 100 miles, but the model response says 100 km, it is invalid.\n" ++
  ("- When the agent response or the reference response is provided in the form of tables/dataframes: focus on the key entities and main components requested in the user query and check whether you can retrieve those from the agent response and whether t" ++
  ("hose match the reference response. If the user query does not specify any format instructions and the main items/components are included in the response then tolerate the differences in the formatting of those tables/dataframes.\n" ++
  ("- When the answer is in numeric format, check whether there are any format requirements in the numeric format, rounding, precision, number of decimals, etc. specified in the user query and the prompt. If there are no such instructions, then tolerate " ++
  ("different numerical formats.\n" ++
  ("- When the answer is in numeric format and there are rounding or precision differences between the agent response and the reference response, if no further instructions are provided evaluate if the rounding strategy or precision in the agent response" ++
  (" follows the standards for that entity. For instance, model accuracy scores must be reported with at least two decimal places (e.g., 0.798 → 0.80 is acceptable,  but 0.7 is not).\n\nBelow are the inputs:\n" ++
  ("\x7b" ++
  ("\n  \"Function API spec\": " ++
  (c7FunctionSpecJson ++
  (",\n  \"User prompt\": " ++
  ("This is a test query." ++
  (",\n  \"Agent response\": " ++
  ("candidate text" ++
  (",\n  \"Reference response\": " ++
  ("reference text" ++
  (",\n" ++
  ("\x7d" ++
  ("\n\nThe answer should be a json alone which follows the json structure below:\n" ++
  ("\x7b" ++
  ("\n  \"is_the_agent_response_valid\": [valid or invalid],\n  \"reasoning\":\n" ++
  ("\x7d" ++
  "\nAnswer with assertiveness:\n"))))))))))))))))))))))))))))))))))))))))

/-- Full run of the format scanner over the prompt template with the C7
field values, built piece by piece. -/
theorem c7_scan :
    formatScan c7Fields FINAL_RESPONSE_MATCH_V2_PROMPT.toList FmtMode.normal =
      some
  ("\nYou are an expert rater for an AI agent. The AI agent is going to call an API to answer the user query and generate API tool use code based for the choice of the API and API arguments. The ideal model response should be a function call that fulfills".toList ++
  (" user query, or a natural language response hedges or asks users for further clarification if a function call does not apply.\nThe primary focus of this rating task is to check correctness of the model responses.\n\nThe data consists of:\n".toList ++
  ("- A set of python function definitions available to the agent.\n- A user query.\n- A model generated response for the prompt. The responses can consist of:\n".toList ++
  ("  - Natural language, when the model is asking for clarification, or tells the user it does not possess the requested functionality / option.\n".toList ++
  ("  - Code, in the form of one or multiple python function calls, and additional code as needed, for when the model is fulfilling the user request.\n".toList ++
  ("You can use the help from a reference response annotated by a human rater. This reference response is of high quality. You can compare the agent\x27s response with the reference response and decide if the agent\x27s response is valid.\n".toList ++
  ("Note sometimes the reference response only contains the key entities of the correct answer and you need to be flexible to allow the agent response to contain more information than the reference response, or to present the key entities in a different ".toList ++
  ("format or structure or in shorter or longer format.\n".toList ++
  ("When the agent response is provided in the form of tables/dataframes or should be best provided in the form of tables/dataframes: focus on the key entities and main components requested in the user query and check whether you can retrieve those from ".toList ++
  ("the agent response. Likewise, if you have the reference response, then find out the key entities and main components in them and check whether you can retrieve those from the agent response. If the prompt does not specify any format instructions and ".toList ++
  ("the main items/components are included in the response then tolerate the differences in the formatting of those tables/dataframes.\n\nYou should follow the constitutions below very carefully to rate the model response:\n".toList ++
  ("- Allow flexibility of format even when reference code only uses one of the possible format, unless API spec or user prompt has explicit format requirement\n".toList ++
  ("  - e.g. For state name, allow both abbreviation and full name unless API spec has explicit requirement. e.g. both \x27tx\x27 and \x27Texas\x27 should be allowed in the agent response even when reference code only uses one of them.\n".toList ++
  ("  - e.g. If a reference response list outputs in a list format, the agent response is allowed to use sentence format and vice versa unless user prompt explicitly asks for a specific format.\n".toList ++
  ("  - e.g. For numbers, allow flexibility of formatting, e.g. 1000000 vs 1,000,000.\n- The model shouldn\x27t assume that it doesn\x27t have access to according data or incapable of answering the question if reference response is able to find a legit answer.\n".toList ++
  ("- If the model response contains the correct final answer, rate it as valid even when the model response contains more information than the reference response.\n".toList ++
  ("- If the user prompt has csv or other table format data, don\x27t read it yourself. Trust the reference response final answer instead.\n".toList ++
  ("- When the validation needs maths, date calculations, do not use your own calculator. Trust the reference response final answer instead.\n".toList ++
  ("- Be mindful about unit of numbers. For example, if the reference response says 100 miles, but the model response says 100 km, it is invalid.\n".toList ++
  ("- When the agent response or the reference response is provided in the form of tables/dataframes: focus on the key entities and main components requested in the user query and check whether you can retrieve those from the agent response and whether t".toList ++
  ("hose match the reference response. If the user query does not specify any format instructions and the main items/components are included in the response then tolerate the differences in the formatting of those tables/dataframes.\n".toList ++
  ("- When the answer is in numeric format, check whether there are any format requirements in the numeric format, rounding, precision, number of decimals, etc. specified in the user query and the prompt. If there are no such instructions, then tolerate ".toList ++
  ("different numerical formats.\n".toList ++
  ("- When the answer is in numeric format and there are rounding or precision differences between the agent response and the reference response, if no further instructions are provided evaluate if the rounding strategy or precision in the agent response".toList ++
  (" follows the standards for that entity. For instance, model accuracy scores must be reported with at least two decimal places (e.g., 0.798 → 0.80 is acceptable,  but 0.7 is not).\n\nBelow are the inputs:\n".toList ++
  (openBr ::
  ("\n  \"Function API spec\": ".toList ++
  (c7FunctionSpecJson.toList ++
  (",\n  \"User prompt\": ".toList ++
  ("This is a test query.".toList ++
  (",\n  \"Agent response\": ".toList ++
  ("candidate text".toList ++
  (",\n  \"Reference response\": ".toList ++
  ("reference text".toList ++
  (",\n".toList ++
  (closeBr ::
  ("\n\nThe answer should be a json alone which follows the json structure below:\n".toList ++
  (openBr ::
  ("\n  \"is_the_agent_response_valid\": [valid or invalid],\n  \"reasoning\":\n".toList ++
  (closeBr ::
  "\nAnswer with assertiveness:\n".toList)))))))))))))))))))))))))))))))))))))))) := by
  rw [show FINAL_RESPONSE_MATCH_V2_PROMPT.toList =
  ("\nYou are an expert rater for an AI agent. The AI agent is going to call an API to answer the user query and generate API tool use code based for the choice of the API and API arguments. The ideal model response should be a function call that fulfills".toList ++
  (" user query, or a natural language response hedges or asks users for further clarification if a function call does not apply.\nThe primary focus of this rating task is to check correctness of the model responses.\n\nThe data consists of:\n".toList ++
  ("- A set of python function definitions available to the agent.\n- A user query.\n- A model generated response for the prompt. The responses can consist of:\n".toList ++
  ("  - Natural language, when the model is asking for clarification, or tells the user it does not possess the requested functionality / option.\n".toList ++
  ("  - Code, in the form of one or multiple python function calls, and additional code as needed, for when the model is fulfilling the user request.\n".toList ++
  ("You can use the help from a reference response annotated by a human rater. This reference response is of high quality. You can compare the agent\x27s response with the reference response and decide if the agent\x27s response is valid.\n".toList ++
  ("Note sometimes the reference response only contains the key entities of the correct answer and you need to be flexible to allow the agent response to contain more information than the reference response, or to present the key entities in a different ".toList ++
  ("format or structure or in shorter or longer format.\n".toList ++
  ("When the agent response is provided in the form of tables/dataframes or should be best provided in the form of tables/dataframes: focus on the key entities and main components requested in the user query and check whether you can retrieve those from ".toList ++
  ("the agent response. Likewise, if you have the reference response, then find out the key entities and main components in them and check whether you can retrieve those from the agent response. If the prompt does not specify any format instructions and ".toList ++
  ("the main items/components are included in the response then tolerate the differences in the formatting of those tables/dataframes.\n\nYou should follow the constitutions below very carefully to rate the model response:\n".toList ++
  ("- Allow flexibility of format even when reference code only uses one of the possible format, unless API spec or user prompt has explicit format requirement\n".toList ++
  ("  - e.g. For state name, allow both abbreviation and full name unless API spec has explicit requirement. e.g. both \x27tx\x27 and \x27Texas\x27 should be allowed in the agent response even when reference code only uses one of them.\n".toList ++
  ("  - e.g. If a reference response list outputs in a list format, the agent response is allowed to use sentence format and vice versa unless user prompt explicitly asks for a specific format.\n".toList ++
  ("  - e.g. For numbers, allow flexibility of formatting, e.g. 1000000 vs 1,000,000.\n- The model shouldn\x27t assume that it doesn\x27t have access to according data or incapable of answering the question if reference response is able to find a legit answer.\n".toList ++
  ("- If the model response contains the correct final answer, rate it as valid even when the model response contains more information than the reference response.\n".toList ++
  ("- If the user prompt has csv or other table format data, don\x27t read it yourself. Trust the reference response final answer instead.\n".toList ++
  ("- When the validation needs maths, date calculations, do not use your own calculator. Trust the reference response final answer instead.\n".toList ++
  ("- Be mindful about unit of numbers. For example, if the reference response says 100 miles, but the model response says 100 km, it is invalid.\n".toList ++
  ("- When the agent response or the reference response is provided in the form of tables/dataframes: focus on the key entities and main components requested in the user query and check whether you can retrieve those from the agent response and whether t".toList ++
  ("hose match the reference response. If the user query does not specify any format instructions and the main items/components are included in the response then tolerate the differences in the formatting of those tables/dataframes.\n".toList ++
  ("- When the answer is in numeric format, check whether there are any format requirements in the numeric format, rounding, precision, number of decimals, etc. specified in the user query and the prompt. If there are no such instructions, then tolerate ".toList ++
  ("different numerical formats.\n".toList ++
  ("- When the answer is in numeric format and there are rounding or precision differences between the agent response and the reference response, if no further instructions are provided evaluate if the rounding strategy or precision in the agent response".toList ++
  (" follows the standards for that entity. For instance, model accuracy scores must be reported with at least two decimal places (e.g., 0.798 → 0.80 is acceptable,  but 0.7 is not).\n\nBelow are the inputs:\n".toList ++
  ("\x7b\x7b".toList ++
  ("\n  \"Function API spec\": ".toList ++
  ("\x7bfunction_api_spec\x7d".toList ++
  (",\n  \"User prompt\": ".toList ++
  ("\x7bprompt\x7d".toList ++
  (",\n  \"Agent response\": ".toList ++
  ("\x7bresponse\x7d".toList ++
  (",\n  \"Reference response\": ".toList ++
  ("\x7bgolden_response\x7d".toList ++
  (",\n".toList ++
  ("\x7d\x7d".toList ++
  ("\n\nThe answer should be a json alone which follows the json structure below:\n".toList ++
  ("\x7b\x7b".toList ++
  ("\n  \"is_the_agent_response_valid\": [valid or invalid],\n  \"reasoning\":\n".toList ++
  ("\x7d\x7d".toList ++
  "\nAnswer with assertiveness:\n".toList))))))))))))))))))))))))))))))))))))))))
    from by simp only [FINAL_RESPONSE_MATCH_V2_PROMPT, toList_append,
      List.append_assoc]]
  exact
  (fmt_copy (by decide)
  (fmt_copy (by decide)
  (fmt_copy (by decide)
  (fmt_copy (by decide)
  (fmt_copy (by decide)
  (fmt_copy (by decide)
  (fmt_copy (by decide)
  (fmt_copy (by decide)
  (fmt_copy (by decide)
  (fmt_copy (by decide)
  (fmt_copy (by decide)
  (fmt_copy (by decide)
  (fmt_copy (by decide)
  (fmt_copy (by decide)
  (fmt_copy (by decide)
  (fmt_copy (by decide)
  (fmt_copy (by decide)
  (fmt_copy (by decide)
  (fmt_copy (by decide)
  (fmt_copy (by decide)
  (fmt_copy (by decide)
  (fmt_copy (by decide)
  (fmt_copy (by decide)
  (fmt_copy (by decide)
  (fmt_copy (by decide)
  (fmt_openEsc
  (fmt_copy (by decide)
  (fmt_field "\x7bfunction_api_spec\x7d" "function_api_spec" (by decide) (by decide) (by decide)
  (fmt_copy (by decide)
  (fmt_field "\x7bprompt\x7d" "prompt" (by decide) (by decide) (by decide)
  (fmt_copy (by decide)
  (fmt_field "\x7bresponse\x7d" "response" (by decide) (by decide) (by decide)
  (fmt_copy (by decide)
  (fmt_field "\x7bgolden_response\x7d" "golden_response" (by decide) (by decide) (by decide)
  (fmt_copy (by decide)
  (fmt_closeEsc
  (fmt_copy (by decide)
  (fmt_openEsc
  (fmt_copy (by decide)
  (fmt_closeEsc
  (fmt_copy_end (by decide))))))))))))))))))))))))))))))))))))))))))


/-- Formatting run for the C7 fixtures, lifted back to strings. -/
theorem c7_prompt_eq :
    format_auto_rater_prompt FINAL_RESPONSE_MATCH_V2_PROMPT c7Actual
      c7Expected = some c7Prompt := by
  show (formatScan c7Fields FINAL_RESPONSE_MATCH_V2_PROMPT.toList
      FmtMode.normal).map String.mk = some c7Prompt
  rw [c7_scan]
  simp only [Option.map_some, Option.map_some', mk_append_toList,
    mk_cons_open, mk_cons_close, mk_toList, c7Prompt]

/-- C7: format_auto_rater_prompt substitutes exactly four fields into the
fixed template — the function specs serialized as a JSON list of objects
with keys Function name / Function description, the expected invocation
user-content text, the actual final-response text, and the expected
final-response text — each embedded literally with no additional escaping;
in particular for the one spec (test_tool, description.) the prompt embeds
the serialized list c7FunctionSpecJson. -/
theorem format_auto_rater_prompt_substitutes_fields :
    format_auto_rater_prompt FINAL_RESPONSE_MATCH_V2_PROMPT c7Actual
        c7Expected = some c7Prompt ∧
      (∃ a b, c7Prompt = a ++ (c7FunctionSpecJson ++ b)) ∧
      (∃ a b, c7Prompt = a ++ ("This is a test query." ++ b)) ∧
      (∃ a b, c7Prompt = a ++ ("candidate text" ++ b)) ∧
      (∃ a b, c7Prompt = a ++ ("reference text" ++ b)) :=
  ⟨c7_prompt_eq,
   ⟨(((((((((((((((((((((((((("\nYou are an expert rater for an AI agent. The AI agent is going to call an API to answer the user query and generate API tool use code based for the choice of the API and API arguments. The ideal model response should be a function call that fulfills" ++ " user query, or a natural language response hedges or asks users for further clarification if a function call does not apply.\nThe primary focus of this rating task is to check correctness of the model responses.\n\nThe data consists of:\n") ++ "- A set of python function definitions available to the agent.\n- A user query.\n- A model generated response for the prompt. The responses can consist of:\n") ++ "  - Natural language, when the model is asking for clarification, or tells the user it does not possess the requested functionality / option.\n") ++ "  - Code, in the form of one or multiple python function calls, and additional code as needed, for when the model is fulfilling the user request.\n") ++ "You can use the help from a reference response annotated by a human rater. This reference response is of high quality. You can compare the agent\x27s response with the reference response and decide if the agent\x27s response is valid.\n") ++ "Note sometimes the reference response only contains the key entities of the correct answer and you need to be flexible to allow the agent response to contain more information than the reference response, or to present the key entities in a different ") ++ "format or structure or in shorter or longer format.\n") ++ "When the agent response is provided in the form of tables/dataframes or should be best provided in the form of tables/dataframes: focus on the key entities and main components requested in the user query and check whether you can retrieve those from ") ++ "the agent response. Likewise, if you have the reference response, then find out the key entities and main components in them and check whether you can retrieve those from the agent response. If the prompt does not specify any format instructions and ") ++ "the main items/components are included in the response then tolerate the differences in the formatting of those tables/dataframes.\n\nYou should follow the constitutions below very carefully to rate the model response:\n") ++ "- Allow flexibility of format even when reference code only uses one of the possible format, unless API spec or user prompt has explicit format requirement\n") ++ "  - e.g. For state name, allow both abbreviation and full name unless API spec has explicit requirement. e.g. both \x27tx\x27 and \x27Texas\x27 should be allowed in the agent response even when reference code only uses one of them.\n") ++ "  - e.g. If a reference response list outputs in a list format, the agent response is allowed to use sentence format and vice versa unless user prompt explicitly asks for a specific format.\n") ++ "  - e.g. For numbers, allow flexibility of formatting, e.g. 1000000 vs 1,000,000.\n- The model shouldn\x27t assume that it doesn\x27t have access to according data or incapable of answering the question if reference response is able to find a legit answer.\n") ++ "- If the model response contains the correct final answer, rate it as valid even when the model response contains more information than the reference response.\n") ++ "- If the user prompt has csv or other table format data, don\x27t read it yourself. Trust the reference response final answer instead.\n") ++ "- When the validation needs maths, date calculations, do not use your own calculator. Trust the reference response final answer instead.\n") ++ "- Be mindful about unit of numbers. For example, if the reference response says 100 miles, but the model response says 100 km, it is invalid.\n") ++ "- When the agent response or the reference response is provided in the form of tables/dataframes: focus on the key entities and main components requested in the user query and check whether you can retrieve those from the agent response and whether t") ++ "hose match the reference response. If the user query does not specify any format instructions and the main items/components are included in the response then tolerate the differences in the formatting of those tables/dataframes.\n") ++ "- When the answer is in numeric format, check whether there are any format requirements in the numeric format, rounding, precision, number of decimals, etc. specified in the user query and the prompt. If there are no such instructions, then tolerate ") ++ "different numerical formats.\n") ++ "- When the answer is in numeric format and there are rounding or precision differences between the agent response and the reference response, if no further instructions are provided evaluate if the rounding strategy or precision in the agent response") ++ " follows the standards for that entity. For instance, model accuracy scores must be reported with at least two decimal places (e.g., 0.798 → 0.80 is acceptable,  but 0.7 is not).\n\nBelow are the inputs:\n") ++ "\x7b") ++ "\n  \"Function API spec\": "),
   (",\n  \"User prompt\": " ++ ("This is a test query." ++ (",\n  \"Agent response\": " ++ ("candidate text" ++ (",\n  \"Reference response\": " ++ ("reference text" ++ (",\n" ++ ("\x7d" ++ ("\n\nThe answer should be a json alone which follows the json structure below:\n" ++ ("\x7b" ++ ("\n  \"is_the_agent_response_valid\": [valid or invalid],\n  \"reasoning\":\n" ++ ("\x7d" ++ "\nAnswer with assertiveness:\n")))))))))))),
   by simp only [c7Prompt, String.append_assoc]⟩,
   ⟨(((((((((((((((((((((((((((("\nYou are an expert rater for an AI agent. The AI agent is going to call an API to answer the user query and generate API tool use code based for the choice of the API and API arguments. The ideal model response should be a function call that fulfills" ++ " user query, or a natural language response hedges or asks users for further clarification if a function call does not apply.\nThe primary focus of this rating task is to check correctness of the model responses.\n\nThe data consists of:\n") ++ "- A set of python function definitions available to the agent.\n- A user query.\n- A model generated response for the prompt. The responses can consist of:\n") ++ "  - Natural language, when the model is asking for clarification, or tells the user it does not possess the requested functionality / option.\n") ++ "  - Code, in the form of one or multiple python function calls, and additional code as needed, for when the model is fulfilling the user request.\n") ++ "You can use the help from a reference response annotated by a human rater. This reference response is of high quality. You can compare the agent\x27s response with the reference response and decide if the agent\x27s response is valid.\n") ++ "Note sometimes the reference response only contains the key entities of the correct answer and you need to be flexible to allow the agent response to contain more information than the reference response, or to present the key entities in a different ") ++ "format or structure or in shorter or longer format.\n") ++ "When the agent response is provided in the form of tables/dataframes or should be best provided in the form of tables/dataframes: focus on the key entities and main components requested in the user query and check whether you can retrieve those from ") ++ "the agent response. Likewise, if you have the reference response, then find out the key entities and main components in them and check whether you can retrieve those from the agent response. If the prompt does not specify any format instructions and ") ++ "the main items/components are included in the response then tolerate the differences in the formatting of those tables/dataframes.\n\nYou should follow the constitutions below very carefully to rate the model response:\n") ++ "- Allow flexibility of format even when reference code only uses one of the possible format, unless API spec or user prompt has explicit format requirement\n") ++ "  - e.g. For state name, allow both abbreviation and full name unless API spec has explicit requirement. e.g. both \x27tx\x27 and \x27Texas\x27 should be allowed in the agent response even when reference code only uses one of them.\n") ++ "  - e.g. If a reference response list outputs in a list format, the agent response is allowed to use sentence format and vice versa unless user prompt explicitly asks for a specific format.\n") ++ "  - e.g. For numbers, allow flexibility of formatting, e.g. 1000000 vs 1,000,000.\n- The model shouldn\x27t assume that it doesn\x27t have access to according data or incapable of answering the question if reference response is able to find a legit answer.\n") ++ "- If the model response contains the correct final answer, rate it as valid even when the model response contains more information than the reference response.\n") ++ "- If the user prompt has csv or other table format data, don\x27t read it yourself. Trust the reference response final answer instead.\n") ++ "- When the validation needs maths, date calculations, do not use your own calculator. Trust the reference response final answer instead.\n") ++ "- Be mindful about unit of numbers. For example, if the reference response says 100 miles, but the model response says 100 km, it is invalid.\n") ++ "- When the agent response or the reference response is provided in the form of tables/dataframes: focus on the key entities and main components requested in the user query and check whether you can retrieve those from the agent response and whether t") ++ "hose match the reference response. If the user query does not specify any format instructions and the main items/components are included in the response then tolerate the differences in the formatting of those tables/dataframes.\n") ++ "- When the answer is in numeric format, check whether there are any format requirements in the numeric format, rounding, precision, number of decimals, etc. specified in the user query and the prompt. If there are no such instructions, then tolerate ") ++ "different numerical formats.\n") ++ "- When the answer is in numeric format and there are rounding or precision differences between the agent response and the reference response, if no further instructions are provided evaluate if the rounding strategy or precision in the agent response") ++ " follows the standards for that entity. For instance, model accuracy scores must be reported with at least two decimal places (e.g., 0.798 → 0.80 is acceptable,  but 0.7 is not).\n\nBelow are the inputs:\n") ++ "\x7b") ++ "\n  \"Function API spec\": ") ++ c7FunctionSpecJson) ++ ",\n  \"User prompt\": "),
   (",\n  \"Agent response\": " ++ ("candidate text" ++ (",\n  \"Reference response\": " ++ ("reference text" ++ (",\n" ++ ("\x7d" ++ ("\n\nThe answer should be a json alone which follows the json structure below:\n" ++ ("\x7b" ++ ("\n  \"is_the_agent_response_valid\": [valid or invalid],\n  \"reasoning\":\n" ++ ("\x7d" ++ "\nAnswer with assertiveness:\n")))))))))),
   by simp only [c7Prompt, String.append_assoc]⟩,
   ⟨(((((((((((((((((((((((((((((("\nYou are an expert rater for an AI agent. The AI agent is going to call an API to answer the user query and generate API tool use code based for the choice of the API and API arguments. The ideal model response should be a function call that fulfills" ++ " user query, or a natural language response hedges or asks users for further clarification if a function call does not apply.\nThe primary focus of this rating task is to check correctness of the model responses.\n\nThe data consists of:\n") ++ "- A set of python function definitions available to the agent.\n- A user query.\n- A model generated response for the prompt. The responses can consist of:\n") ++ "  - Natural language, when the model is asking for clarification, or tells the user it does not possess the requested functionality / option.\n") ++ "  - Code, in the form of one or multiple python function calls, and additional code as needed, for when the model is fulfilling the user request.\n") ++ "You can use the help from a reference response annotated by a human rater. This reference response is of high quality. You can compare the agent\x27s response with the reference response and decide if the agent\x27s response is valid.\n") ++ "Note sometimes the reference response only contains the key entities of the correct answer and you need to be flexible to allow the agent response to contain more information than the reference response, or to present the key entities in a different ") ++ "format or structure or in shorter or longer format.\n") ++ "When the agent response is provided in the form of tables/dataframes or should be best provided in the form of tables/dataframes: focus on the key entities and main components requested in the user query and check whether you can retrieve those from ") ++ "the agent response. Likewise, if you have the reference response, then find out the key entities and main components in them and check whether you can retrieve those from the agent response. If the prompt does not specify any format instructions and ") ++ "the main items/components are included in the response then tolerate the differences in the formatting of those tables/dataframes.\n\nYou should follow the constitutions below very carefully to rate the model response:\n") ++ "- Allow flexibility of format even when reference code only uses one of the possible format, unless API spec or user prompt has explicit format requirement\n") ++ "  - e.g. For state name, allow both abbreviation and full name unless API spec has explicit requirement. e.g. both \x27tx\x27 and \x27Texas\x27 should be allowed in the agent response even when reference code only uses one of them.\n") ++ "  - e.g. If a reference response list outputs in a list format, the agent response is allowed to use sentence format and vice versa unless user prompt explicitly asks for a specific format.\n") ++ "  - e.g. For numbers, allow flexibility of formatting, e.g. 1000000 vs 1,000,000.\n- The model shouldn\x27t assume that it doesn\x27t have access to according data or incapable of answering the question if reference response is able to find a legit answer.\n") ++ "- If the model response contains the correct final answer, rate it as valid even when the model response contains more information than the reference response.\n") ++ "- If the user prompt has csv or other table format data, don\x27t read it yourself. Trust the reference response final answer instead.\n") ++ "- When the validation needs maths, date calculations, do not use your own calculator. Trust the reference response final answer instead.\n") ++ "- Be mindful about unit of numbers. For example, if the reference response says 100 miles, but the model response says 100 km, it is invalid.\n") ++ "- When the agent response or the reference response is provided in the form of tables/dataframes: focus on the key entities and main components requested in the user query and check whether you can retrieve those from the agent response and whether t") ++ "hose match the reference response. If the user query does not specify any format instructions and the main items/components are included in the response then tolerate the differences in the formatting of those tables/dataframes.\n") ++ "- When the answer is in numeric format, check whether there are any format requirements in the numeric format, rounding, precision, number of decimals, etc. specified in the user query and the prompt. If there are no such instructions, then tolerate ") ++ "different numerical formats.\n") ++ "- When the answer is in numeric format and there are rounding or precision differences between the agent response and the reference response, if no further instructions are provided evaluate if the rounding strategy or precision in the agent response") ++ " follows the standards for that entity. For instance, model accuracy scores must be reported with at least two decimal places (e.g., 0.798 → 0.80 is acceptable,  but 0.7 is not).\n\nBelow are the inputs:\n") ++ "\x7b") ++ "\n  \"Function API spec\": ") ++ c7FunctionSpecJson) ++ ",\n  \"User prompt\": ") ++ "This is a test query.") ++ ",\n  \"Agent response\": "),
   (",\n  \"Reference response\": " ++ ("reference text" ++ (",\n" ++ ("\x7d" ++ ("\n\nThe answer should be a json alone which follows the json structure below:\n" ++ ("\x7b" ++ ("\n  \"is_the_agent_response_valid\": [valid or invalid],\n  \"reasoning\":\n" ++ ("\x7d" ++ "\nAnswer with assertiveness:\n")))))))),
   by simp only [c7Prompt, String.append_assoc]⟩,
   ⟨(((((((((((((((((((((((((((((((("\nYou are an expert rater for an AI agent. The AI agent is going to call an API to answer the user query and generate API tool use code based for the choice of the API and API arguments. The ideal model response should be a function call that fulfills" ++ " user query, or a natural language response hedges or asks users for further clarification if a function call does not apply.\nThe primary focus of this rating task is to check correctness of the model responses.\n\nThe data consists of:\n") ++ "- A set of python function definitions available to the agent.\n- A user query.\n- A model generated response for the prompt. The responses can consist of:\n") ++ "  - Natural language, when the model is asking for clarification, or tells the user it does not possess the requested functionality / option.\n") ++ "  - Code, in the form of one or multiple python function calls, and additional code as needed, for when the model is fulfilling the user request.\n") ++ "You can use the help from a reference response annotated by a human rater. This reference response is of high quality. You can compare the agent\x27s response with the reference response and decide if the agent\x27s response is valid.\n") ++ "Note sometimes the reference response only contains the key entities of the correct answer and you need to be flexible to allow the agent response to contain more information than the reference response, or to present the key entities in a different ") ++ "format or structure or in shorter or longer format.\n") ++ "When the agent response is provided in the form of tables/dataframes or should be best provided in the form of tables/dataframes: focus on the key entities and main components requested in the user query and check whether you can retrieve those from ") ++ "the agent response. Likewise, if you have the reference response, then find out the key entities and main components in them and check whether you can retrieve those from the agent response. If the prompt does not specify any format instructions and ") ++ "the main items/components are included in the response then tolerate the differences in the formatting of those tables/dataframes.\n\nYou should follow the constitutions below very carefully to rate the model response:\n") ++ "- Allow flexibility of format even when reference code only uses one of the possible format, unless API spec or user prompt has explicit format requirement\n") ++ "  - e.g. For state name, allow both abbreviation and full name unless API spec has explicit requirement. e.g. both \x27tx\x27 and \x27Texas\x27 should be allowed in the agent response even when reference code only uses one of them.\n") ++ "  - e.g. If a reference response list outputs in a list format, the agent response is allowed to use sentence format and vice versa unless user prompt explicitly asks for a specific format.\n") ++ "  - e.g. For numbers, allow flexibility of formatting, e.g. 1000000 vs 1,000,000.\n- The model shouldn\x27t assume that it doesn\x27t have access to according data or incapable of answering the question if reference response is able to find a legit answer.\n") ++ "- If the model response contains the correct final answer, rate it as valid even when the model response contains more information than the reference response.\n") ++ "- If the user prompt has csv or other table format data, don\x27t read it yourself. Trust the reference response final answer instead.\n") ++ "- When the validation needs maths, date calculations, do not use your own calculator. Trust the reference response final answer instead.\n") ++ "- Be mindful about unit of numbers. For example, if the reference response says 100 miles, but the model response says 100 km, it is invalid.\n") ++ "- When the agent response or the reference response is provided in the form of tables/dataframes: focus on the key entities and main components requested in the user query and check whether you can retrieve those from the agent response and whether t") ++ "hose match the reference response. If the user query does not specify any format instructions and the main items/components are included in the response then tolerate the differences in the formatting of those tables/dataframes.\n") ++ "- When the answer is in numeric format, check whether there are any format requirements in the numeric format, rounding, precision, number of decimals, etc. specified in the user query and the prompt. If there are no such instructions, then tolerate ") ++ "different numerical formats.\n") ++ "- When the answer is in numeric format and there are rounding or precision differences between the agent response and the reference response, if no further instructions are provided evaluate if the rounding strategy or precision in the agent response") ++ " follows the standards for that entity. For instance, model accuracy scores must be reported with at least two decimal places (e.g., 0.798 → 0.80 is acceptable,  but 0.7 is not).\n\nBelow are the inputs:\n") ++ "\x7b") ++ "\n  \"Function API spec\": ") ++ c7FunctionSpecJson) ++ ",\n  \"User prompt\": ") ++ "This is a test query.") ++ ",\n  \"Agent response\": ") ++ "candidate text") ++ ",\n  \"Reference response\": "),
   (",\n" ++ ("\x7d" ++ ("\n\nThe answer should be a json alone which follows the json structure below:\n" ++ ("\x7b" ++ ("\n  \"is_the_agent_response_valid\": [valid or invalid],\n  \"reasoning\":\n" ++ ("\x7d" ++ "\nAnswer with assertiveness:\n")))))),
   by simp only [c7Prompt, String.append_assoc]⟩⟩

/-! ### Claim C4 -/

/-- The key with a value as a bare quoted string, terminated by a comma. -/
def keyShapeBare (v : String) : List Char :=
  ("\"is_the_agent_response_valid\": \"" ++ v ++ "\",").toList

/-- The key with a value as a single-element list. -/
def keyShapeList (v : String) : List Char :=
  ("\"is_the_agent_response_valid\": [\"" ++ v ++ "\"],").toList

/-- The key with a value carrying an embedded newline before the closing
quote, inside a single-element list. -/
def keyShapeNewline (v : String) : List Char :=
  ("\"is_the_agent_response_valid\":\n    [ \"" ++ v ++ "\n\"],").toList

/-- Judge text containing an earlier, properly terminated occurrence of
the key with value bogus before the occurrence with value valid. -/
def judgeDecoyValid : String :=
  "\"is_the_agent_response_valid\": \"bogus\",\n\"is_the_agent_response_valid\": \"valid\",\n"

/-- Counterexample to C4 as stated: this judge text contains the key with
value valid as a bare quoted string, yet leftmost search extracts the
earlier decoy value bogus, and the score is null rather than 1.0. -/
theorem extract_leftmost_decoy :
    judgeDecoyValid.toList =
        "\"is_the_agent_response_valid\": \"bogus\",\n".toList ++
          (keyShapeBare "valid" ++ "\n".toList) ∧
      _extract_validity_label judgeDecoyValid = some "bogus" ∧
      convert_auto_rater_response_to_score (mkJudgeResponse judgeDecoyValid) =
        none := by
  exact ⟨by decide, by decide, by decide⟩

/-! #### Leftmost-match machinery: a key occurrence is extracted whenever
no occurrence of the quoted key starts earlier in the text. -/

theorem matchLiteral_eq_append {key s r : List Char}
    (h : matchLiteral key s = some r) : s = key ++ r := by
  induction key generalizing s with
  | nil =>
      cases h
      rfl
  | cons l ls ih =>
      cases s with
      | nil => simp [matchLiteral] at h
      | cons c cs =>
          rw [matchLiteral] at h
          by_cases he : l = c
          · rw [if_pos he] at h
            rw [List.cons_append, ← he, ih h]
          · rw [if_neg he] at h
            simp at h

theorem matchLiteral_self_append (key r : List Char) :
    matchLiteral key (key ++ r) = some r := by
  induction key with
  | nil => rfl
  | cons l ls ih => simp [matchLiteral, ih]

theorem hasSubstring_of_leading_match {pat t : List Char} (hne : pat ≠ [])
    (h : pat <+: t) : hasSubstring pat t = true := by
  obtain ⟨tail, htail⟩ := h
  cases hp : pat with
  | nil => exact absurd hp hne
  | cons p ps =>
      subst hp
      rw [← htail, List.cons_append, hasSubstring, ← List.cons_append,
        matchLiteral_self_append]
      simp

theorem hasSubstring_suffix_mono {pat t1 t2 : List Char} (hs : t1 <:+ t2)
    (h : hasSubstring pat t1 = true) : hasSubstring pat t2 = true := by
  induction t2 with
  | nil =>
      have : t1 = [] := List.suffix_nil.mp hs
      subst this
      exact h
  | cons c cs ih =>
      rcases List.suffix_cons_iff.mp hs with h1 | h1
      · subst h1
        exact h
      · rw [hasSubstring, ih h1, Bool.or_true]

theorem prefix_append_take {l a b : List Char} {n : Nat}
    (h : l <+: a ++ b) (hlen : l.length ≤ a.length + n) :
    l <+: a ++ b.take n := by
  have key : (a ++ b.take n).take l.length = (a ++ b).take l.length := by
    rw [List.take_append_eq_append_take, List.take_append_eq_append_take,
      List.take_take]
    have hmin : min (l.length - a.length) n = l.length - a.length :=
      Nat.min_eq_left (by omega)
    rw [hmin]
  rw [List.prefix_iff_eq_take] at h ⊢
  rw [key]
  exact h

/-- Leftmost search skips a prefix in which no occurrence of the quoted
key starts; the bound `take 28` covers occurrences straddling the end of
the prefix, since the quoted key has 29 characters. -/
theorem searchKey_skip_leading (pre rest : List Char)
    (hno : hasSubstring validKeyQuoted (pre ++ rest.take 28) = false) :
    searchKey validKeyLit (pre ++ rest) = searchKey validKeyLit rest := by
  induction pre with
  | nil => rw [List.nil_append]
  | cons c cs ih =>
      have hm : matchLiteral validKeyLit (c :: (cs ++ rest)) = none := by
        cases hm2 : matchLiteral validKeyLit (c :: (cs ++ rest)) with
        | none => rfl
        | some r =>
            exfalso
            have heq : c :: (cs ++ rest) = validKeyLit ++ r :=
              matchLiteral_eq_append hm2
            have hq : validKeyQuoted <+: validKeyLit :=
              ⟨[Char.ofNat 0x3a], by decide⟩
            have hpq : validKeyQuoted <+: (c :: cs) ++ rest :=
              hq.trans ⟨r, heq.symm⟩
            have h29 : validKeyQuoted.length = 29 := by decide
            have hlen : validKeyQuoted.length ≤ (c :: cs).length + 28 := by
              rw [h29, List.length_cons]
              omega
            have hpre : validKeyQuoted <+: (c :: cs) ++ rest.take 28 :=
              prefix_append_take hpq hlen
            have htrue : hasSubstring validKeyQuoted
                ((c :: cs) ++ rest.take 28) = true :=
              hasSubstring_of_leading_match (by decide) hpre
            rw [hno] at htrue
            simp at htrue
      have e : searchKey validKeyLit (c :: (cs ++ rest)) =
          match matchLiteral validKeyLit (c :: (cs ++ rest)) with
          | some r => matchValueTail r <|> searchKey validKeyLit (cs ++ rest)
          | none => searchKey validKeyLit (cs ++ rest) := rfl
      have hno2 : hasSubstring validKeyQuoted (cs ++ rest.take 28) = false := by
        rw [List.cons_append, hasSubstring, Bool.or_eq_false_iff] at hno
        exact hno.2
      rw [List.cons_append, e, hm]
      exact ih hno2

/-- Extraction of a key-value occurrence after an arbitrary prefix that
contains no earlier occurrence of the quoted key, for any shape whose
first 28 characters are those of the quoted key and whose leftmost match
yields the value `v` whatever follows it. -/
theorem extract_text_of_shape (shape : List Char) (v : String)
    (hB : ∀ q, searchKey validKeyLit (shape ++ q) = some v.toList)
    (h28 : shape.take 28 = validKeyQuoted.take 28)
    (hlen : 28 ≤ shape.length) :
    ∀ pre post : List Char,
      hasSubstring validKeyQuoted (pre ++ validKeyQuoted.take 28) = false →
      _extract_validity_label (String.mk (pre ++ (shape ++ post))) = some v := by
  intro pre post hno
  have ht : (shape ++ post).take 28 = validKeyQuoted.take 28 := by
    rw [List.take_append_eq_append_take]
    have h0 : 28 - shape.length = 0 := by omega
    rw [h0, List.take_zero, List.append_nil, h28]
  have hs : searchKey validKeyLit (pre ++ (shape ++ post)) = some v.toList := by
    rw [searchKey_skip_leading pre (shape ++ post) (by rw [ht]; exact hno)]
    exact hB post
  simp only [_extract_validity_label]
  have hL : (String.mk (pre ++ (shape ++ post))).toList =
      pre ++ (shape ++ post) := rfl
  rw [hL, hs]
  rfl

/-- Stripping a text whose middle part starts and ends with non-whitespace
characters only trims the prefix from the left and the suffix from the
right. -/
theorem pyStrip_concat (pre mid post : List Char)
    (hhead : mid.head?.map isPySpace = some false)
    (hlast : mid.getLast?.map isPySpace = some false) :
    pyStrip (String.mk (pre ++ (mid ++ post))) =
      String.mk (pre.dropWhile isPySpace ++
        (mid ++ (post.reverse.dropWhile isPySpace).reverse)) := by
  obtain ⟨m0, mt, hm⟩ : ∃ m0 mt, mid = m0 :: mt := by
    cases mid with
    | nil => simp at hhead
    | cons a b => exact ⟨a, b, rfl⟩
  have hm0 : isPySpace m0 = false := by
    rw [hm] at hhead
    simpa using hhead
  obtain ⟨mi, ml, hm2⟩ : ∃ mi ml, mid = mi ++ [ml] := by
    rcases List.eq_nil_or_concat' mid with h | ⟨mi, ml, h⟩
    · rw [h] at hhead
      simp at hhead
    · exact ⟨mi, ml, h⟩
  have hml : isPySpace ml = false := by
    rw [hm2, List.getLast?_concat] at hlast
    simpa using hlast
  have hmid_drop : (mid ++ post).dropWhile isPySpace = mid ++ post := by
    rw [hm, List.cons_append, List.dropWhile_cons, hm0]
    simp
  have step1 : (pre ++ (mid ++ post)).dropWhile isPySpace =
      pre.dropWhile isPySpace ++ (mid ++ post) := by
    rw [List.dropWhile_append]
    split
    · next hemp =>
        rw [List.isEmpty_iff] at hemp
        rw [hemp, List.nil_append, hmid_drop]
    · rfl
  have hmidrev_drop : (mid.reverse ++ (pre.dropWhile isPySpace).reverse).dropWhile
      isPySpace = mid.reverse ++ (pre.dropWhile isPySpace).reverse := by
    rw [hm2, List.reverse_concat, List.cons_append, List.dropWhile_cons, hml]
    simp
  have step2 : ((pre.dropWhile isPySpace ++ (mid ++ post)).reverse).dropWhile
      isPySpace = post.reverse.dropWhile isPySpace ++
        (mid.reverse ++ (pre.dropWhile isPySpace).reverse) := by
    rw [List.reverse_append, List.reverse_append, List.append_assoc,
      List.dropWhile_append]
    split
    · next hemp =>
        rw [List.isEmpty_iff] at hemp
        rw [hemp, List.nil_append, hmidrev_drop]
    · rfl
  unfold pyStrip
  have hL : (String.mk (pre ++ (mid ++ post))).toList =
      pre ++ (mid ++ post) := rfl
  rw [hL, step1, step2, List.reverse_append, List.reverse_append,
    List.reverse_reverse, List.reverse_reverse, List.append_assoc]

/-- Score of a judge response made of an arbitrary prefix with no earlier
occurrence of the quoted key, a key-value shape, and an arbitrary
suffix: the converter strips the text, extracts the shape value `v`, and
maps it through the valid/invalid score table. -/
theorem convert_text_of_shape (shape : List Char) (v : String) (sc : Option ℚ)
    (hB : ∀ q, searchKey validKeyLit (shape ++ q) = some v.toList)
    (h28 : shape.take 28 = validKeyQuoted.take 28)
    (hlen : 28 ≤ shape.length)
    (hhead : shape.head?.map isPySpace = some false)
    (hlast : shape.getLast?.map isPySpace = some false)
    (hsc : (if (some v : Option String) = some "valid" then some (1 : ℚ)
            else if (some v : Option String) = some "invalid" then some 0
            else none) = sc) :
    ∀ pre post : List Char,
      hasSubstring validKeyQuoted (pre ++ validKeyQuoted.take 28) = false →
      convert_auto_rater_response_to_score
        (mkJudgeResponse (String.mk (pre ++ (shape ++ post)))) = sc := by
  intro pre post hno
  have hno2 : hasSubstring validKeyQuoted
      (pre.dropWhile isPySpace ++ validKeyQuoted.take 28) = false := by
    cases hck : hasSubstring validKeyQuoted
        (pre.dropWhile isPySpace ++ validKeyQuoted.take 28) with
    | false => rfl
    | true =>
        exfalso
        obtain ⟨u, hu⟩ := List.dropWhile_suffix (l := pre) isPySpace
        have hsuf : pre.dropWhile isPySpace ++ validKeyQuoted.take 28 <:+
            pre ++ validKeyQuoted.take 28 :=
          ⟨u, by rw [← List.append_assoc, hu]⟩
        have := hasSubstring_suffix_mono hsuf hck
        rw [hno] at this
        simp at this
  have hg : get_text_from_content
      (mkJudgeResponse (String.mk (pre ++ (shape ++ post)))).content =
        String.mk (pre ++ (shape ++ post)) := rfl
  have hext := extract_text_of_shape shape v hB h28 hlen
    (pre.dropWhile isPySpace) ((post.reverse.dropWhile isPySpace).reverse) hno2
  simp only [convert_auto_rater_response_to_score, hg,
    pyStrip_concat pre shape post hhead hlast, hext]
  exact hsc

/-- Leftmost match of the bare-quoted-string shape with value valid,
whatever follows it. -/
theorem searchKey_keyShapeBare_valid :
    ∀ q, searchKey validKeyLit (keyShapeBare "valid" ++ q) = some "valid".toList :=
  fun _ => rfl

/-- Leftmost match of the single-element-list shape with value valid. -/
theorem searchKey_keyShapeList_valid :
    ∀ q, searchKey validKeyLit (keyShapeList "valid" ++ q) = some "valid".toList :=
  fun _ => rfl

/-- Leftmost match of the embedded-newline shape with value valid. -/
theorem searchKey_keyShapeNewline_valid :
    ∀ q, searchKey validKeyLit (keyShapeNewline "valid" ++ q) =
      some "valid".toList :=
  fun _ => rfl

/-- Leftmost match of the bare-quoted-string shape with value invalid. -/
theorem searchKey_keyShapeBare_invalid :
    ∀ q, searchKey validKeyLit (keyShapeBare "invalid" ++ q) =
      some "invalid".toList :=
  fun _ => rfl

/-- Leftmost match of the single-element-list shape with value invalid. -/
theorem searchKey_keyShapeList_invalid :
    ∀ q, searchKey validKeyLit (keyShapeList "invalid" ++ q) =
      some "invalid".toList :=
  fun _ => rfl

/-- Leftmost match of the embedded-newline shape with value invalid. -/
theorem searchKey_keyShapeNewline_invalid :
    ∀ q, searchKey validKeyLit (keyShapeNewline "invalid" ++ q) =
      some "invalid".toList :=
  fun _ => rfl

/-- C4 amended: for every judge text made of a prefix in which no
occurrence of the quoted key "is_the_agent_response_valid" starts, the
key with value valid in one of the three shapes (bare quoted string,
single-element list, embedded newline before the closing quote), and any
suffix, label extraction returns "valid" and
`convert_auto_rater_response_to_score` returns 1.0; with value "invalid"
in the same three shapes it returns "invalid" and 0.0.  Without the
no-earlier-occurrence condition the leftmost search can extract a decoy
value instead (see the counterexample). -/
theorem extract_and_score_three_shapes_leftmost (pre post : List Char)
    (hno : hasSubstring validKeyQuoted (pre ++ validKeyQuoted.take 28) = false) :
    (_extract_validity_label
        (String.mk (pre ++ (keyShapeBare "valid" ++ post))) = some "valid" ∧
     _extract_validity_label
        (String.mk (pre ++ (keyShapeList "valid" ++ post))) = some "valid" ∧
     _extract_validity_label
        (String.mk (pre ++ (keyShapeNewline "valid" ++ post))) = some "valid" ∧
     convert_auto_rater_response_to_score (mkJudgeResponse
        (String.mk (pre ++ (keyShapeBare "valid" ++ post)))) = some 1 ∧
     convert_auto_rater_response_to_score (mkJudgeResponse
        (String.mk (pre ++ (keyShapeList "valid" ++ post)))) = some 1 ∧
     convert_auto_rater_response_to_score (mkJudgeResponse
        (String.mk (pre ++ (keyShapeNewline "valid" ++ post)))) = some 1) ∧
    (_extract_validity_label
        (String.mk (pre ++ (keyShapeBare "invalid" ++ post))) = some "invalid" ∧
     _extract_validity_label
        (String.mk (pre ++ (keyShapeList "invalid" ++ post))) = some "invalid" ∧
     _extract_validity_label
        (String.mk (pre ++ (keyShapeNewline "invalid" ++ post))) =
          some "invalid" ∧
     convert_auto_rater_response_to_score (mkJudgeResponse
        (String.mk (pre ++ (keyShapeBare "invalid" ++ post)))) = some 0 ∧
     convert_auto_rater_response_to_score (mkJudgeResponse
        (String.mk (pre ++ (keyShapeList "invalid" ++ post)))) = some 0 ∧
     convert_auto_rater_response_to_score (mkJudgeResponse
        (String.mk (pre ++ (keyShapeNewline "invalid" ++ post)))) = some 0) := by
  refine ⟨⟨?_, ?_, ?_, ?_, ?_, ?_⟩, ?_, ?_, ?_, ?_, ?_, ?_⟩
  · exact extract_text_of_shape _ _ searchKey_keyShapeBare_valid
      (by decide) (by decide) pre post hno
  · exact extract_text_of_shape _ _ searchKey_keyShapeList_valid
      (by decide) (by decide) pre post hno
  · exact extract_text_of_shape _ _ searchKey_keyShapeNewline_valid
      (by decide) (by decide) pre post hno
  · exact convert_text_of_shape _ _ _ searchKey_keyShapeBare_valid
      (by decide) (by decide) (by decide) (by decide) (by decide) pre post hno
  · exact convert_text_of_shape _ _ _ searchKey_keyShapeList_valid
      (by decide) (by decide) (by decide) (by decide) (by decide) pre post hno
  · exact convert_text_of_shape _ _ _ searchKey_keyShapeNewline_valid
      (by decide) (by decide) (by decide) (by decide) (by decide) pre post hno
  · exact extract_text_of_shape _ _ searchKey_keyShapeBare_invalid
      (by decide) (by decide) pre post hno
  · exact extract_text_of_shape _ _ searchKey_keyShapeList_invalid
      (by decide) (by decide) pre post hno
  · exact extract_text_of_shape _ _ searchKey_keyShapeNewline_invalid
      (by decide) (by decide) pre post hno
  · exact convert_text_of_shape _ _ _ searchKey_keyShapeBare_invalid
      (by decide) (by decide) (by decide) (by decide) (by decide) pre post hno
  · exact convert_text_of_shape _ _ _ searchKey_keyShapeList_invalid
      (by decide) (by decide) (by decide) (by decide) (by decide) pre post hno
  · exact convert_text_of_shape _ _ _ searchKey_keyShapeNewline_invalid
      (by decide) (by decide) (by decide) (by decide) (by decide) pre post hno

/-- Prefix used by the C4 witness: an opening brace and indentation, with
no occurrence of the quoted key. -/
def c4Pre : List Char := "\x7b\n  ".toList

/-- Suffix used by the C4 witness: the rest of a JSON object. -/
def c4Post : List Char := "\n  \"reasoning\": \"ok\"\n\x7d".toList

/-- Witness for the amended C4 at a concrete prefix and suffix. -/
theorem extract_and_score_three_shapes_leftmost_witness :
    (hasSubstring validKeyQuoted (c4Pre ++ validKeyQuoted.take 28) = false) ∧
      _extract_validity_label
        (String.mk (c4Pre ++ (keyShapeBare "valid" ++ c4Post))) = some "valid" ∧
      convert_auto_rater_response_to_score (mkJudgeResponse
        (String.mk (c4Pre ++ (keyShapeBare "valid" ++ c4Post)))) = some 1 :=
  ⟨by decide,
   (extract_and_score_three_shapes_leftmost c4Pre c4Post (by decide)).1.1,
   (extract_and_score_three_shapes_leftmost c4Pre c4Post (by decide)).1.2.2.2.1⟩
